import Mathlib

/-!
Verification development for the ACME client transport core (`src/md_acme.c` of
mod_md).  The C code is shallowly embedded: the engine structure, the request
record, the HTTP transport (as a scripted list of responses), and the request
executor are translated into executable Lean definitions, and the claimed
properties of the specification are settled as theorems about those
definitions.
-/

set_option maxHeartbeats 1000000

/-- APR status codes used by `md_acme.c`.  `other n` stands for any further
status value (e.g. transport-level errors produced by the HTTP collaborator). -/
inductive AprStatus where
  | APR_SUCCESS
  | APR_EINVAL
  | APR_EAGAIN
  | APR_BADARG
  | APR_EGENERAL
  | APR_EACCES
  | APR_ENOENT
  | APR_ENOTIMPL
  | other (code : Nat)
deriving DecidableEq, Repr

/-! ## The natural-order case-insensitive string comparison

`problem_status_get` compares URN strings with `apr_strnatcasecmp` (APR's
`strnatcmp.c`, Martin Pool's natural-order algorithm with case folding).  The
algorithm skips ASCII whitespace on both sides, compares runs of digits
numerically, and otherwise compares characters after upper-casing.  It is
modelled here exactly; a fuel parameter (always called with more fuel than the
length of the first string, which shrinks by at least one per iteration) makes
the main loop structurally recursive so that the kernel can evaluate it. -/

/-- `apr_isspace` for the C locale: space, \t, \n, \v, \f, \r. -/
def nat_isspace (c : Char) : Bool :=
  c = ' ' || c = '\t' || c = '\n' || c = Char.ofNat 11 || c = Char.ofNat 12 || c = '\r'

/-- `compare_right` of strnatcmp: compare two runs of digits; the longest run
wins, a difference in the most significant differing digit breaks ties. -/
def compare_right_aux (bias : Int) : List Char → List Char → Int
  | [], [] => bias
  | [], b :: _ => if b.isDigit then -1 else bias
  | a :: _, [] => if a.isDigit then 1 else bias
  | a :: as, b :: bs =>
    if !a.isDigit && !b.isDigit then bias
    else if !a.isDigit then -1
    else if !b.isDigit then 1
    else compare_right_aux
      (if bias = 0 then (if a < b then -1 else if b < a then 1 else 0) else bias) as bs

/-- `compare_left` of strnatcmp: fractional runs (leading zero present);
the first differing digit decides. -/
def compare_left : List Char → List Char → Int
  | [], [] => 0
  | [], b :: _ => if b.isDigit then -1 else 0
  | a :: _, [] => if a.isDigit then 1 else 0
  | a :: as, b :: bs =>
    if !a.isDigit && !b.isDigit then 0
    else if !a.isDigit then -1
    else if !b.isDigit then 1
    else if a < b then -1
    else if b < a then 1
    else compare_left as bs

/-- Main loop of `strnatcmp0` with `fold_case = 1`.  Per iteration: skip
whitespace on both sides, compare digit runs if both heads are digits, check
for simultaneous end, then compare the upper-cased heads and advance. -/
def strnatcmp_fold : Nat → List Char → List Char → Int
  | 0, _, _ => 0
  | fuel + 1, a0, b0 =>
    let a := a0.dropWhile nat_isspace
    let b := b0.dropWhile nat_isspace
    match a, b with
    | [], [] => 0
    | [], _ :: _ => -1
    | _ :: _, [] => 1
    | ca :: as, cb :: bs =>
      let run : Int :=
        if ca.isDigit && cb.isDigit then
          if ca = '0' || cb = '0' then compare_left (ca :: as) (cb :: bs)
          else compare_right_aux 0 (ca :: as) (cb :: bs)
        else 0
      if run ≠ 0 then run
      else
        let ua := ca.toUpper
        let ub := cb.toUpper
        if ua < ub then -1 else if ub < ua then 1 else strnatcmp_fold fuel as bs

/-- `apr_strnatcasecmp`: the first string loses at least one character per
loop iteration, so `|a| + 1` fuel always suffices. -/
def apr_strnatcasecmp (a b : String) : Int :=
  strnatcmp_fold (a.data.length + 1) a.data b.data

/-! ## The problem classifier (`Problems` table and `problem_status_get`) -/

/-- The static table `Problems[]` of `md_acme.c` (lines 49-68). -/
def Problems : List (String × AprStatus) :=
  [ ("acme:error:badCSR",                .APR_EINVAL),
    ("acme:error:badNonce",              .APR_EAGAIN),
    ("acme:error:badSignatureAlgorithm", .APR_EINVAL),
    ("acme:error:invalidContact",        .APR_BADARG),
    ("acme:error:unsupportedContact",    .APR_EGENERAL),
    ("acme:error:malformed",             .APR_EINVAL),
    ("acme:error:rateLimited",           .APR_BADARG),
    ("acme:error:rejectedIdentifier",    .APR_BADARG),
    ("acme:error:serverInternal",        .APR_EGENERAL),
    ("acme:error:unauthorized",          .APR_EACCES),
    ("acme:error:unsupportedIdentifier", .APR_BADARG),
    ("acme:error:userActionRequired",    .APR_EAGAIN),
    ("acme:error:badRevocationReason",   .APR_EINVAL),
    ("acme:error:caa",                   .APR_EGENERAL),
    ("acme:error:dns",                   .APR_EGENERAL),
    ("acme:error:connection",            .APR_EGENERAL),
    ("acme:error:tls",                   .APR_EGENERAL),
    ("acme:error:incorrectResponse",     .APR_EGENERAL) ]

/-- The prefix strip of `problem_status_get`: `strstr(type, p) == type` holds
exactly when `p` is a prefix of `type`. -/
def strip_urn (t : List Char) : List Char :=
  if "urn:ietf:params:".data.isPrefixOf t then t.drop ("urn:ietf:params:".data.length)
  else if "urn:".data.isPrefixOf t then t.drop ("urn:".data.length)
  else t

/-- `problem_status_get` (md_acme.c lines 70-86): strip a recognized URN
prefix, then return the status of the first table entry that compares equal
under `apr_strnatcasecmp`; `APR_EGENERAL` when none does. -/
def problem_status_get (type_ : String) : AprStatus :=
  let t : String := ⟨strip_urn type_.data⟩
  match Problems.find? (fun p => apr_strnatcasecmp t p.1 = 0) with
  | some p => p.2
  | none => .APR_EGENERAL


/-! ## JSON values and the external JSON library

`md_json.c` (jansson wrapper) is an external collaborator of this file.  Only
the operations `md_acme.c` uses are modelled: string-valued field lookup
(`md_json_gets`, which yields NULL for a missing field and for a field that is
not a JSON string), nested lookup through one object level, serialization
(which succeeds on every well-formed value), and reading a response body
(`md_json_read_http`, whose outcome is carried by the scripted response). -/

inductive MdJson where
  | str (s : String)
  | obj (fields : List (String × MdJson))
  /-- A JWS envelope as produced by the signing collaborator `md_jws_sign`. -/
  | jws (payload : String) (prot_hdrs : List (String × String)) (key_id : Option String)
  | otherVal
deriving Repr

/-- `md_json_gets j key NULL`: the string value of field `key`, NULL when the
field is missing or not a string (jansson object keys are unique and
case-sensitive; first match models the unique binding). -/
def md_json_gets (j : MdJson) (key : String) : Option String :=
  match j with
  | .obj fields =>
    match fields.find? (fun f => f.1 == key) with
    | some (_, .str s) => some s
    | _ => none
  | _ => none

/-- Lookup of a sub-object, for two-segment paths such as `meta.termsOfService`. -/
def md_json_getj (j : MdJson) (key : String) : Option MdJson :=
  match j with
  | .obj fields => (fields.find? (fun f => f.1 == key)).map (fun f => f.2)
  | _ => none

/-- `md_json_gets j key1 key2 NULL`. -/
def md_json_gets2 (j : MdJson) (k1 k2 : String) : Option String :=
  match md_json_getj j k1 with
  | some jj => md_json_gets jj k2
  | none => none

mutual

/-- Compact serialization of a JSON value.  The serialization text itself is
never inspected by the claims; what matters is that serializing a well-formed
value succeeds (jansson only fails on invalid values, which the embedding
cannot represent). -/
def md_json_ser : MdJson → String
  | .str s => "\x22" ++ s ++ "\x22"
  | .obj fields => "\x7b" ++ String.intercalate "," (md_json_serFields fields) ++ "\x7d"
  | .jws p _ _ => "\x7b" ++ p ++ "\x7d"
  | .otherVal => "null"

/-- Serialize the fields of an object. -/
def md_json_serFields : List (String × MdJson) → List String
  | [] => []
  | (k, v) :: rest => ("\x22" ++ k ++ "\x22:" ++ md_json_ser v) :: md_json_serFields rest

end
/-- `md_json_writep`: returns the serialized text, NULL on failure (never, in
this embedding — see `md_json_ser`).  The `MD_JSON_FMT_COMPACT` and
`MD_JSON_FMT_INDENT` variants differ only in whitespace, which no claim
observes, so a single serializer stands for both. -/
def md_json_writep (j : MdJson) : Option String :=
  some (md_json_ser j)

/-! ## APR tables

`apr_table_t` with string keys compared case-insensitively.  `apr_table_set`
removes every binding of the key and adds the new one; `apr_table_get` returns
the first binding. -/

/-- Case-insensitive key comparison of APR tables. -/
def tkey_eq (a b : String) : Bool :=
  a.data.map Char.toLower == b.data.map Char.toLower

/-- `apr_table_get`. -/
def t_get (t : List (String × String)) (k : String) : Option String :=
  (t.find? (fun p => tkey_eq p.1 k)).map (fun p => p.2)

/-- `apr_table_set`. -/
def t_set (t : List (String × String)) (k v : String) : List (String × String) :=
  t.filter (fun p => !tkey_eq p.1 k) ++ [(k, v)]

/-! ## The engine (`md_acme_t`) and the request record (`md_acme_req_t`)

Strategy selectors are function pointers in C, assigned at setup; they are
modelled as tagged options (`none` = NULL pointer).  The C `union api` is
modelled as two independent records, both empty after `apr_pcalloc`. -/

inductive AcmeVersion where
  | UNKNOWN
  | V1
  | V2
deriving DecidableEq, Repr

/-- `MD_ACME_VERSION_MAJOR`: 0x000000, 0x010000, 0x020000 shifted right. -/
def versionMajor : AcmeVersion → Nat
  | .UNKNOWN => 0
  | .V1 => 1
  | .V2 => 2

/-- Which per-version strategy a function-pointer field holds. -/
inductive VSel where
  | v1
  | v2
deriving DecidableEq, Repr

/-- V1 endpoint table (`api.v1`). -/
structure ApiV1 where
  new_authz : Option String := none
  new_cert : Option String := none
  new_reg : Option String := none
  revoke_cert : Option String := none
deriving DecidableEq, Repr

/-- V2 endpoint table (`api.v2`). -/
structure ApiV2 where
  new_account : Option String := none
  new_order : Option String := none
  revoke_cert : Option String := none
  key_change : Option String := none
  new_nonce : Option String := none
deriving DecidableEq, Repr

/-- An ACME account record (`md_acme_acct_t`), reduced to the two fields
`md_acme.c` reads. -/
structure MdAcmeAcct where
  url : String
  ca_url : Option String := none
deriving DecidableEq, Repr

/-- The engine `md_acme_t`. -/
structure MdAcme where
  url : String
  sname : String := ""
  user_agent : String := ""
  proxy_url : Option String := none
  nonce : Option String := none
  version : AcmeVersion := .UNKNOWN
  api_v1 : ApiV1 := {}
  api_v2 : ApiV2 := {}
  ca_agreement : Option String := none
  new_nonce_fn : Option VSel := none
  req_init_fn : Option VSel := none
  post_new_account_fn : Option VSel := none
  acct_id : Option String := none
  acct : Option MdAcmeAcct := none
  acct_key : Option String := none
  max_retries : Nat := 3
  /-- whether the lazily created HTTP transport handle exists -/
  http : Bool := false
deriving Repr

/-- Observable actions of a run: HTTP calls (recording the reservoir content
at the moment the request goes out), invocations of the signing capability,
invocations of the caller's decoders, and request-pool lifecycle. -/
inductive Event where
  | http (method : String) (url : String) (nonce_at_send : Option String)
  | sign (prot_hdrs : List (String × String)) (key_id : Option String)
  | cb_json
  | cb_res
  | pool_create
  | pool_destroy
deriving DecidableEq, Repr

/-- Outcome of `md_json_read_http` on a response body: parsed JSON, "not JSON
content" (`APR_ENOENT`, json left NULL), or another parse error. -/
inductive BodyRead where
  | json (j : MdJson)
  | notJson
  | err (s : AprStatus)
deriving Repr

/-- One scripted answer of the HTTP collaborator (`md_http_response_t`):
transport status, HTTP status, headers, and the body's parse outcome. -/
structure HttpResponse where
  rv : AprStatus := .APR_SUCCESS
  status : Nat := 200
  headers : List (String × String) := []
  body : BodyRead := .notJson
deriving Repr

/-- The world threaded through a run: the engine, the remaining transport
script, the trace of events, and the `json_ctx` baton of `md_acme_get_json`. -/
structure World where
  acme : MdAcme
  script : List HttpResponse := []
  events : List Event := []
  json_ctx : Option MdJson := none
deriving Repr

/-- The caller's `on_init` callback.  The only initializer used by the code
base routes through `md_acme_req_body_init req payload`. -/
inductive OnInitSpec where
  | none
  | bodyInit (payload : MdJson)

/-- The caller's `on_json` decoder: absent, the `on_got_json` decoder of
`md_acme_get_json` (clones the body into the baton), or an arbitrary pure
decoder returning a status. -/
inductive OnJsonSpec where
  | none
  | gotJson
  | pureFn (f : MdJson → AprStatus)

/-- The caller's `on_res` decoder. -/
inductive OnResSpec where
  | none
  | pureFn (f : HttpResponse → AprStatus)

/-- The request record `md_acme_req_t`. -/
structure Req where
  method : String
  url : String
  prot_hdrs : List (String × String) := []
  req_json : Option MdJson := none
  resp_hdrs : Option (List (String × String)) := none
  resp_json : Option MdJson := none
  rv : AprStatus := .APR_SUCCESS
  max_retries : Nat
  on_init : OnInitSpec := .none
  on_json : OnJsonSpec := .none
  on_res : OnResSpec := .none

/-! ## Nonce reservoir and request creation -/

/-- `req_update_nonce` (lines 91-99): absorb a `Replay-Nonce` response header
into the engine, overwriting any stored nonce; headers are always present in
the embedding (the C NULL check is for a NULL table). -/
def req_update_nonce (acme : MdAcme) (hdrs : List (String × String)) : MdAcme :=
  match t_get hdrs "Replay-Nonce" with
  | some n => { acme with nonce := some n }
  | none => acme

/-- `http_update_nonce` (lines 101-111): the callback of the nonce-refill
`HEAD` request; absorbs the nonce (regardless of `res->rv`) and returns
`res->rv`. -/
def http_update_nonce (res : HttpResponse) (w : World) : AprStatus × World :=
  (res.rv, { w with acme := req_update_nonce w.acme res.headers })

/-- `md_acme_req_create` (lines 113-142): allocate the request's pool and the
record with an empty protected-header table and the engine's retry budget.
(The C NULL returns on allocation failure are not representable.) -/
def md_acme_req_create (w : World) (method url : String) : Req × World :=
  ({ method := method, url := url, prot_hdrs := [],
     max_retries := w.acme.max_retries },
   { w with events := w.events ++ [.pool_create] })

/-- `md_acme_req_done` (lines 257-264): destroy the request's pool and return
the recorded result kind. -/
def md_acme_req_done (req : Req) (w : World) : AprStatus × World :=
  (req.rv, { w with events := w.events ++ [.pool_destroy] })

/-! ## Signing and version-specific request initializers -/

/-- The signing collaborator `md_jws_sign` (md_jws.c, outside this file):
deterministic JWS construction over payload, protected headers, key and
optional key id.  Modelled as always succeeding; the invocation is recorded
as a `sign` event. -/
def md_jws_sign (w : World) (payload : String) (prot_hdrs : List (String × String))
    (key : Option String) (key_id : Option String) : AprStatus × MdJson × World :=
  (.APR_SUCCESS, .jws payload prot_hdrs key_id,
   { w with events := w.events ++ [.sign prot_hdrs key_id] })

/-- `acmev1_req_init` (lines 210-229): fail with `APR_EINVAL` when no account
is bound or the payload does not serialize; otherwise sign compactly with the
account key and NO key id. -/
def acmev1_req_init (req : Req) (jpayload : MdJson) (w : World) :
    AprStatus × Req × World :=
  match w.acme.acct with
  | none => (.APR_EINVAL, req, w)
  | some _ =>
    match md_json_writep jpayload with
    | none => (.APR_EINVAL, req, w)
    | some payload =>
      let s := md_jws_sign w payload req.prot_hdrs w.acme.acct_key none
      (s.1, { req with req_json := some s.2.1 }, s.2.2)

/-- `acmev2_req_init` (lines 231-250): as V1 but the key id is the bound
account's URL. -/
def acmev2_req_init (req : Req) (jpayload : MdJson) (w : World) :
    AprStatus × Req × World :=
  match w.acme.acct with
  | none => (.APR_EINVAL, req, w)
  | some acct =>
    match md_json_writep jpayload with
    | none => (.APR_EINVAL, req, w)
    | some payload =>
      let s := md_jws_sign w payload req.prot_hdrs w.acme.acct_key (some acct.url)
      (s.1, { req with req_json := some s.2.1 }, s.2.2)

/-- `md_acme_req_body_init` (lines 252-255): dispatch through the engine's
`req_init_fn` strategy selector (`none` models the NULL function pointer,
unreachable once the engine is bootstrapped). -/
def md_acme_req_body_init (req : Req) (payload : MdJson) (w : World) :
    AprStatus × Req × World :=
  match w.acme.req_init_fn with
  | some .v1 => acmev1_req_init req payload w
  | some .v2 => acmev2_req_init req payload w
  | none => (.APR_EGENERAL, req, w)

/-! ## The problem inspector and the response handler -/

/-- Status mapping of `inspect_problem` when no RFC 7807 document is found
(lines 190-204). -/
def inspect_status_map (res : HttpResponse) : AprStatus :=
  if res.rv = .APR_SUCCESS then
    match res.status with
    | 400 => .APR_EINVAL
    | 403 => .APR_EACCES
    | 404 => .APR_ENOENT
    | _ => .APR_EGENERAL
  else res.rv

/-- `inspect_problem` (lines 161-205): when the response's `content-type` is
`application/problem+json` and its body parses, classify the problem's `type`
URN and retain the problem JSON on the request; otherwise map the HTTP status.
(A problem document without a `type` field makes the C code pass NULL to
`strstr` — undefined behaviour; modelled as classifying the empty string.) -/
def inspect_problem (req : Req) (res : HttpResponse) : AprStatus × Req :=
  let ctype := t_get (req.resp_hdrs.getD []) "content-type"
  if ctype = some "application/problem+json" then
    match res.body with
    | .json problem =>
      let ptype := (md_json_gets problem "type").getD ""
      let req := { req with resp_json := some problem, rv := problem_status_get ptype }
      (req.rv, req)
    | _ => (inspect_status_map res, req)
  else (inspect_status_map res, req)

/-- Run the caller's `on_json` decoder (reached only when it is set). -/
def run_on_json (oj : OnJsonSpec) (j : MdJson) (w : World) : AprStatus × World :=
  match oj with
  | .none => (.APR_EINVAL, w)
  | .gotJson => (.APR_SUCCESS, { w with json_ctx := some j, events := w.events ++ [.cb_json] })
  | .pureFn f => (f j, { w with events := w.events ++ [.cb_json] })

/-- `on_response` (lines 266-324).  Returns the status handed back to the HTTP
collaborator, the updated world, and the request record when it is left alive
(`some` exactly on the recoverable-problem path), `none` when its pool has
been destroyed. -/
def on_response (req : Req) (res : HttpResponse) (w : World) :
    AprStatus × World × Option Req :=
  if res.rv ≠ .APR_SUCCESS then
    -- transport failure: goto out, destroy the request
    (res.rv, (md_acme_req_done req w).2, none)
  else
    let req := { req with resp_hdrs := some res.headers }
    let w := { w with acme := req_update_nonce w.acme res.headers }
    if 200 ≤ res.status ∧ res.status < 300 then
      -- try the decoders in order
      let dec : Bool × AprStatus × Req × World :=
        match req.on_json with
        | .none => (false, res.rv, req, w)
        | oj =>
          match res.body with
          | .json j =>
            let req := { req with resp_json := some j }
            let rj := run_on_json oj j w
            (true, rj.1, req, rj.2)
          | .notJson => (false, res.rv, req, w)   -- APR_ENOENT: fall through
          | .err e => (true, e, req, w)           -- other parse failure: surface
      let dec2 : Bool × AprStatus × Req × World :=
        if dec.1 then dec
        else
          match dec.2.2.1.on_res with
          | .none => dec
          | .pureFn f =>
            (true, f res, dec.2.2.1,
             { dec.2.2.2 with events := dec.2.2.2.events ++ [.cb_res] })
      let rv := if dec2.1 then dec2.2.1 else .APR_EINVAL
      (rv, (md_acme_req_done dec2.2.2.1 dec2.2.2.2).2, none)
    else
      let pr := inspect_problem req res
      if pr.1 = .APR_EAGAIN then
        (pr.1, w, some pr.2)                      -- leave req alive
      else
        (pr.1, (md_acme_req_done pr.2 w).2, none)

/-! ## The HTTP collaborator

`md_http_GET/POSTd/HEAD` perform the exchange synchronously and return the
callback's result.  The transport is a script of responses consumed in order;
an exhausted script stands for a transport that cannot even start the exchange
(an `other`-class error, callback not invoked).  Each attempted call is
recorded with the reservoir content at the moment of sending. -/

/-- An HTTP call whose callback is `on_response` (GET/POST/HEAD of the
executor's dispatch). -/
def md_http_request (w : World) (method url : String) (req : Req) :
    AprStatus × World × Option Req :=
  let w := { w with events := w.events ++ [Event.http method url w.acme.nonce] }
  match w.script with
  | [] => (.other 999, w, some req)
  | res :: rest => on_response req res { w with script := rest }

/-- An HTTP `HEAD` whose callback is `http_update_nonce` (the nonce refill of
`acmev1_new_nonce`/`acmev2_new_nonce`, lines 144-152). -/
def md_http_HEAD_nonce (w : World) (url : String) : AprStatus × World :=
  let w := { w with events := w.events ++ [Event.http "HEAD" url w.acme.nonce] }
  match w.script with
  | [] => (.other 999, w)
  | res :: rest => http_update_nonce res { w with script := rest }

/-- `acmev1_new_nonce`: `HEAD` on the V1 `new-reg` endpoint. -/
def acmev1_new_nonce (w : World) : AprStatus × World :=
  md_http_HEAD_nonce w (w.acme.api_v1.new_reg.getD "")

/-- `acmev2_new_nonce`: `HEAD` on the V2 `newNonce` endpoint. -/
def acmev2_new_nonce (w : World) : AprStatus × World :=
  md_http_HEAD_nonce w (w.acme.api_v2.new_nonce.getD "")

/-- Dispatch through the `new_nonce_fn` strategy selector. -/
def new_nonce_call (w : World) : AprStatus × World :=
  match w.acme.new_nonce_fn with
  | some .v1 => acmev1_new_nonce w
  | some .v2 => acmev2_new_nonce w
  | none => (.APR_EGENERAL, w)

/-! ## The request executor `md_acme_req_send` (lines 326-404)

The C function is one function that (a) tail-recurses on itself with a
strictly decreasing `req->max_retries` and (b) calls `md_acme_setup`, whose
directory fetch is a `GET` through the same function — a mutual recursion that
is dynamically absent, because the bootstrap branch is only reached by
non-GET/HEAD methods.  The body is therefore written once, parameterized over
the bootstrap entry point (`setup_impl`); `md_acme_setup` instantiates it with
a dummy (its fetch is a `GET`, for which the branch is dead — see
`req_send_g_setup_irrelevant`), and `md_acme_req_send` instantiates it with
the real `md_acme_setup`.  The retry recursion is structural on a fuel
argument kept equal to `req.max_retries`. -/

/-- Bootstrap step of the signed-request preparation (lines 337-341): run the
directory resolver when the version is UNKNOWN; its failure is an early
`return rv`. -/
def prepare_boot (setup_impl : World → AprStatus × World) (w : World) :
    Except (AprStatus × World) World :=
  if w.acme.version = .UNKNOWN then
    let s := setup_impl w
    if s.1 = .APR_SUCCESS then .ok s.2 else .error s
  else .ok w

/-- Nonce-refill step (lines 342-348): refill an empty reservoir through the
version strategy; a refill failure is an early `return rv`. -/
def prepare_nonce (w : World) : Except (AprStatus × World) World :=
  if w.acme.nonce = none then
    let s := new_nonce_call w
    if s.1 = .APR_SUCCESS then .ok s.2 else .error s
  else .ok w

/-- Protected-header block (lines 350-354): copy the nonce under `nonce`, add
`url` for protocol major versions above 1, then consume the reservoir. -/
def prepare_hdrs (req : Req) (w : World) : Req × World :=
  let req := { req with prot_hdrs := t_set req.prot_hdrs "nonce" (w.acme.nonce.getD "") }
  let req :=
    if versionMajor w.acme.version > 1 then
      { req with prot_hdrs := t_set req.prot_hdrs "url" req.url }
    else req
  (req, { w with acme := { w.acme with nonce := none } })

/-- The signed-request preparation block (lines 336-355): either an early
`return rv` (setup or nonce refill failed; note the C returns WITHOUT
destroying the request here), or the request with nonce/url protected headers
set and the reservoir drained.  GET/HEAD requests skip the whole block. -/
def req_send_prepare (setup_impl : World → AprStatus × World) (req : Req) (w : World) :
    Except (AprStatus × World) (Req × World) :=
  if req.method = "GET" ∨ req.method = "HEAD" then .ok (req, w)
  else
    match prepare_boot setup_impl w with
    | .error e => .error e
    | .ok w =>
      match prepare_nonce w with
      | .error e => .error e
      | .ok w => .ok (prepare_hdrs req w)

/-- Serialization check and HTTP dispatch (lines 359-391), together with the
destruction of the request when init or serialization failed (lines 400-402).
Takes the `(rv, req, world)` outcome of the `on_init` stage; returns status,
world, and the request when it is still alive (`some` exactly when
`on_response` left it alive on the recoverable path, or on the not-dispatched
`ENOTIMPL` path, where the C leaks it).  A failed init never reaches the
retry check in C (the check sits inside the `rv == APR_SUCCESS` block); here
it reports `none` for the request, which makes the retry check a no-op on
that path, so the merged control flow is the same. -/
def req_send_dispatch (ini : AprStatus × Req × World) : AprStatus × World × Option Req :=
  let req := ini.2.1
  let w := ini.2.2
  -- serialize the signed body (lines 359-364)
  let rv : AprStatus :=
    if ini.1 = .APR_SUCCESS then
      match req.req_json with
      | some j => (match md_json_writep j with | some _ => ini.1 | none => .APR_EINVAL)
      | none => ini.1
    else ini.1
  if rv = .APR_SUCCESS then
    -- dispatch on the method (lines 376-390)
    if req.method = "GET" then md_http_request w "GET" req.url req
    else if req.method = "POST" then md_http_request w "POST" req.url req
    else if req.method = "HEAD" then md_http_request w "HEAD" req.url req
    else (.APR_ENOTIMPL, w, some req)
  else
    -- init or serialization failed: destroy the request (lines 400-402)
    (rv, (md_acme_req_done req w).2, none)

/-- `md_acme_req_send`, generic in the bootstrap entry point.  `fuel` equals
`req.max_retries` at every call.  The final `if` is the retry of a
recoverable failure (lines 393-396); on the recoverable path `on_response`
left the request alive.  (When the EAGAIN came from the transport, the
request was already destroyed and the C code re-reads freed memory; the
embedding treats that case as terminal.)  `req = NULL` (line 397): terminal
dispatch outcomes do not destroy the request here. -/
def req_send_g (setup_impl : World → AprStatus × World) :
    Nat → Req → World → AprStatus × World
  | fuel, req0, w0 =>
    match req_send_prepare setup_impl req0 w0 with
    | .error e => e
    | .ok pw =>
      -- on_init (line 357)
      let ini : AprStatus × Req × World :=
        match pw.1.on_init with
        | .none => (.APR_SUCCESS, pw.1, pw.2)
        | .bodyInit payload => md_acme_req_body_init pw.1 payload pw.2
      let disp := req_send_dispatch ini
      if disp.1 = .APR_EAGAIN then
        match fuel with
        | 0 => (disp.1, disp.2.1)
        | n + 1 =>
          match disp.2.2 with
          | some req' => req_send_g setup_impl n { req' with max_retries := n } disp.2.1
          | none => (disp.1, disp.2.1)
      else (disp.1, disp.2.1)

/-- Bootstrap entry point used for requests whose method makes the bootstrap
branch unreachable (the directory `GET` of `md_acme_setup`). -/
def dead_setup : World → AprStatus × World :=
  fun w => (.APR_EGENERAL, w)

/-! ## Directory resolver (`md_acme_setup`, lines 602-670) and GET facade -/

/-- `on_got_json`/`md_acme_get_json` (lines 451-480): a `GET` whose `on_json`
clones the body into the caller's baton (`json_ctx` of the world).  Defined
with `dead_setup`: valid for every `GET` (see `req_send_g_setup_irrelevant`). -/
def md_acme_get_json (w : World) (url : String) : AprStatus × World × Option MdJson :=
  let w := { w with json_ctx := none }
  let cr := md_acme_req_create w "GET" url
  let req := { cr.1 with on_json := OnJsonSpec.gotJson }
  let sw := req_send_g dead_setup req.max_retries req cr.2
  (sw.1, sw.2, if sw.1 = .APR_SUCCESS then sw.2.json_ctx else none)

/-- The version-detection block of `md_acme_setup` (lines 632-661), a pure
transformation of the engine by the directory document: on `new-authz`,
populate the V1 endpoint table and select the V1 strategies, committing
version V1 only when all four endpoints are present; else on `newAccount`,
the same for V2 with its five endpoints; otherwise leave the engine as is. -/
def setup_detect (acme : MdAcme) (json : MdJson) : MdAcme :=
  match md_json_gets json "new-authz" with
  | some s =>
    let acme := { acme with api_v1 :=
      { new_authz := some s,
        new_cert := md_json_gets json "new-cert",
        new_reg := md_json_gets json "new-reg",
        revoke_cert := md_json_gets json "revoke-cert" } }
    let acme :=
      if acme.api_v1.new_authz.isSome ∧ acme.api_v1.new_cert.isSome
         ∧ acme.api_v1.new_reg.isSome ∧ acme.api_v1.revoke_cert.isSome then
        { acme with version := .V1 }
      else acme
    { acme with ca_agreement := md_json_gets2 json "meta" "terms-of-service",
                new_nonce_fn := some .v1, req_init_fn := some .v1,
                post_new_account_fn := some .v1 }
  | none =>
    match md_json_gets json "newAccount" with
    | some s =>
      let acme := { acme with api_v2 :=
        { new_account := some s,
          new_order := md_json_gets json "newOrder",
          revoke_cert := md_json_gets json "revokeCert",
          key_change := md_json_gets json "keyChange",
          new_nonce := md_json_gets json "newNonce" } }
      let acme :=
        if acme.api_v2.new_account.isSome ∧ acme.api_v2.new_order.isSome
           ∧ acme.api_v2.revoke_cert.isSome ∧ acme.api_v2.key_change.isSome
           ∧ acme.api_v2.new_nonce.isSome then
          { acme with version := .V2 }
        else acme
      { acme with ca_agreement := md_json_gets2 json "meta" "termsOfService",
                  new_nonce_fn := some .v2, req_init_fn := some .v2,
                  post_new_account_fn := some .v2 }
    | none => acme

/-- `md_acme_setup` (lines 602-670): reset the version, lazily create the
HTTP transport, fetch the directory, run the version detection, and fail with
`APR_EINVAL` when the version is still UNKNOWN afterwards.  A failed
directory fetch logs guidance and returns without touching the detection. -/
def md_acme_setup (w : World) : AprStatus × World :=
  let w := { w with acme := { w.acme with version := .UNKNOWN } }
  let w := if w.acme.http then w else { w with acme := { w.acme with http := true } }
  let gj := md_acme_get_json w w.acme.url
  if gj.1 ≠ .APR_SUCCESS then
    (gj.1, gj.2.1)
  else
    match gj.2.2 with
    | none => (.APR_EINVAL, gj.2.1)  -- unreachable: a successful GET delivered the body
    | some json =>
      let acme := setup_detect gj.2.1.acme json
      if acme.version = .UNKNOWN then (.APR_EINVAL, { gj.2.1 with acme := acme })
      else (gj.1, { gj.2.1 with acme := acme })

/-! ## Facade operations -/

/-- `md_acme_req_send` proper: the executor with the real bootstrap. -/
def md_acme_req_send (req : Req) (w : World) : AprStatus × World :=
  req_send_g md_acme_setup req.max_retries req w

/-- `md_acme_POST` (lines 406-425).  (The C asserts `url` and
`on_json || on_res`.) -/
def md_acme_POST (w : World) (url : String) (on_init : OnInitSpec)
    (on_json : OnJsonSpec) (on_res : OnResSpec) : AprStatus × World :=
  let (req, w) := md_acme_req_create w "POST" url
  md_acme_req_send { req with on_init := on_init, on_json := on_json, on_res := on_res } w

/-- `md_acme_GET` (lines 427-446). -/
def md_acme_GET (w : World) (url : String) (on_init : OnInitSpec)
    (on_json : OnJsonSpec) (on_res : OnResSpec) : AprStatus × World :=
  let (req, w) := md_acme_req_create w "GET" url
  md_acme_req_send { req with on_init := on_init, on_json := on_json, on_res := on_res } w

/-! ## Engine creation (`md_acme_create`, lines 561-599) -/

/-- Split a character list at the first occurrence of `"://"`: scheme part
and remainder. -/
def abs_uri_parts : List Char → Option (List Char × List Char)
  | [] => none
  | c :: rest =>
    if (c :: rest).take 3 = [':', '/', '/'] then some ([], rest.drop 2)
    else
      match abs_uri_parts rest with
      | some p => some (c :: p.1, p.2)
      | none => none

/-- Modelled from the spec: `md_util_abs_uri_check` (md_util.c, not under
src/) — "validates `url` is an absolute URI".  An absolute URI here is
`scheme "://" host ...` with nonempty scheme and host. -/
def md_util_abs_uri_check (url : String) : Bool :=
  match abs_uri_parts url.data with
  | some p => !p.1.isEmpty && !(p.2.takeWhile (fun c => c ≠ '/' && c ≠ ':')).isEmpty
  | none => false

/-- Hostname extraction of `apr_uri_parse` (external library), for the
`sname` field. -/
def uri_hostname (url : String) : String :=
  match abs_uri_parts url.data with
  | some p => ⟨p.2.takeWhile (fun c => c ≠ '/' && c ≠ ':')⟩
  | none => ""

/-- `md_acme_create`: validate the URL, allocate a zeroed engine with retry
budget 3, a user agent built from the product string, the short host name,
and version UNKNOWN.  `none` models the C error returns. -/
def md_acme_create (base_product : String) (url : String) (proxy_url : Option String) :
    Option MdAcme :=
  if ¬ md_util_abs_uri_check url then none
  else
    let hostname := uri_hostname url
    let sname :=
      if hostname.length ≤ 16 then hostname
      else ⟨hostname.data.drop (hostname.length - 16)⟩
    some { url := url,
           user_agent := base_product ++ " mod_md/" ++ "2.0.x",
           proxy_url := proxy_url,
           max_retries := 3,
           sname := sname,
           version := .UNKNOWN }

/-! ## Concrete fixtures for scenario runs and witnesses -/

/-- Count the POST exchanges in a trace. -/
def countPOST (l : List Event) : Nat :=
  (l.filter (fun e => match e with | .http "POST" _ _ => true | _ => false)).length

/-- Count the request-pool creations in a trace. -/
def countPoolCreate (l : List Event) : Nat :=
  (l.filter (fun e => match e with | .pool_create => true | _ => false)).length

/-- Count the request-pool destructions in a trace. -/
def countPoolDestroy (l : List Event) : Nat :=
  (l.filter (fun e => match e with | .pool_destroy => true | _ => false)).length

/-- Count the invocations of the signing capability in a trace. -/
def countSign (l : List Event) : Nat :=
  (l.filter (fun e => match e with | .sign _ _ => true | _ => false)).length

/-- A bound account at CA `https://ca/dir`. -/
def acct7 : MdAcmeAcct := { url := "https://ca/acct/7", ca_url := some "https://ca/dir" }

/-- A bootstrapped V2 engine with account `acct7` bound and nonce `n0` held. -/
def acmeV2 : MdAcme :=
  { url := "https://ca/dir", version := .V2,
    api_v2 := { new_account := some "https://ca/newAcct",
                new_order := some "https://ca/newOrder",
                revoke_cert := some "https://ca/revoke",
                key_change := some "https://ca/keyChange",
                new_nonce := some "https://ca/newNonce" },
    new_nonce_fn := some .v2, req_init_fn := some .v2, post_new_account_fn := some .v2,
    acct := some acct7, acct_key := some "key7", acct_id := some "7",
    nonce := some "n0", http := true }

/-- A bootstrapped V1 engine with account `acct7` bound and nonce `n0` held. -/
def acmeV1 : MdAcme :=
  { url := "https://ca/dir", version := .V1,
    api_v1 := { new_authz := some "https://ca/newAuthz",
                new_cert := some "https://ca/newCert",
                new_reg := some "https://ca/newReg",
                revoke_cert := some "https://ca/revoke" },
    new_nonce_fn := some .v1, req_init_fn := some .v1, post_new_account_fn := some .v1,
    acct := some acct7, acct_key := some "key7", acct_id := some "7",
    nonce := some "n0", http := true }

/-- A 400 response carrying an RFC 7807 `badNonce` problem and a fresh nonce. -/
def badNonceResp (fresh : String) : HttpResponse :=
  { rv := .APR_SUCCESS, status := 400,
    headers := [("Replay-Nonce", fresh), ("Content-Type", "application/problem+json")],
    body := .json (.obj [("type", .str "urn:ietf:params:acme:error:badNonce"),
                         ("detail", .str "stale")]) }

/-- A 200 response with a decodable JSON body and a fresh nonce. -/
def okJsonResp (fresh : String) : HttpResponse :=
  { rv := .APR_SUCCESS, status := 200,
    headers := [("Replay-Nonce", fresh)],
    body := .json (.obj [("ok", .str "true")]) }

/-- The scripted world of the bad-nonce recovery scenario: first POST answered
400+badNonce with fresh nonce `n1`, second POST answered 200. -/
def wRetry : World :=
  { acme := acmeV2, script := [badNonceResp "n1", okJsonResp "n2"] }

/-- A scenario whose single POST is answered with a fatal (non-recoverable)
500 failure. -/
def wFatal : World :=
  { acme := acmeV2, script := [{ rv := .APR_SUCCESS, status := 500 }] }

/-- The same scenario with the engine's retry budget set to 0. -/
def wRetry0 : World :=
  { acme := { acmeV2 with max_retries := 0 }, script := [badNonceResp "n1", okJsonResp "n2"] }

/-- The bad-nonce facade call of the scenario. -/
def retryCall (w : World) : AprStatus × World :=
  md_acme_POST w "https://ca/order" (.bodyInit (.obj [("o", .str "1")]))
    (.pureFn (fun _ => .APR_SUCCESS)) .none

/-- The request record `retryCall` creates (before the send). -/
def retryReq1 : Req :=
  { method := "POST", url := "https://ca/order", max_retries := 3,
    on_init := .bodyInit (.obj [("o", .str "1")]),
    on_json := .pureFn (fun _ => .APR_SUCCESS) }

/-- The world `retryCall wRetry` hands to the executor. -/
def retryW1 : World :=
  { acme := acmeV2, script := [badNonceResp "n1", okJsonResp "n2"],
    events := [.pool_create] }

/-- The protected headers of the scenario's first attempt. -/
def retryHdrs : List (String × String) :=
  [("nonce", "n0"), ("url", "https://ca/order")]

/-- The scenario's state after the header-preparation stage. -/
def retryPW : Req × World :=
  ({ retryReq1 with prot_hdrs := retryHdrs },
   { retryW1 with acme := { acmeV2 with nonce := none } })

/-- The scenario's state after the `on_init` (signing) stage. -/
def retryINI : AprStatus × Req × World :=
  (.APR_SUCCESS,
   { retryReq1 with
     prot_hdrs := retryHdrs,
     req_json := some (.jws (md_json_ser (.obj [("o", .str "1")])) retryHdrs
       (some "https://ca/acct/7")) },
   { retryW1 with
     acme := { acmeV2 with nonce := none },
     events := retryW1.events ++ [.sign retryHdrs (some "https://ca/acct/7")] })

/-- The same request record after the failing first exchange: response head
and problem body retained, result kind `APR_EAGAIN`. -/
def retryReqA : Req :=
  { retryINI.2.1 with
    resp_hdrs := some [("Replay-Nonce", "n1"),
                       ("Content-Type", "application/problem+json")],
    resp_json := some (.obj [("type", .str "urn:ietf:params:acme:error:badNonce"),
                             ("detail", .str "stale")]),
    rv := .APR_EAGAIN }

/-- The scenario's dispatch outcome of the first attempt: recoverable failure,
fresh nonce absorbed, record alive. -/
def retryD : AprStatus × World × Option Req :=
  (.APR_EAGAIN,
   { acme := { acmeV2 with nonce := some "n1" },
     script := [okJsonResp "n2"],
     events := retryINI.2.2.events ++ [.http "POST" "https://ca/order" none] },
   some retryReqA)

/-- A 200 response delivering a directory document. -/
def dirResp (json : MdJson) : HttpResponse :=
  { rv := .APR_SUCCESS, status := 200, headers := [], body := .json json }

/-- A fresh engine (transport already created) whose directory fetch is
scripted to deliver `json`. -/
def wDir (json : MdJson) : World :=
  { acme := { url := "https://ca/dir", http := true }, script := [dirResp json] }

/-- A complete V1 directory document. -/
def dirV1 : MdJson :=
  .obj [("new-authz", .str "https://ca/acme/new-authz"),
        ("new-cert", .str "https://ca/acme/new-cert"),
        ("new-reg", .str "https://ca/acme/new-reg"),
        ("revoke-cert", .str "https://ca/acme/revoke-cert")]

/-- A complete V2 directory document. -/
def dirV2 : MdJson :=
  .obj [("newAccount", .str "https://ca/acme/new-acct"),
        ("newOrder", .str "https://ca/acme/new-order"),
        ("revokeCert", .str "https://ca/acme/revoke-cert"),
        ("keyChange", .str "https://ca/acme/key-change"),
        ("newNonce", .str "https://ca/acme/new-nonce")]

/-- A directory document that names `newAccount` but lacks the other V2
endpoints. -/
def dirPartial : MdJson := .obj [("newAccount", .str "https://ca/acme/new-acct")]

/-- A directory document that names `new-authz` but lacks the other V1
endpoints. -/
def dirPartialV1 : MdJson := .obj [("new-authz", .str "https://ca/acme/new-authz")]


/-! ## Trace observables and helper lemmas -/

/-- An event is POST-clean when, if it records a POST exchange, the reservoir
was empty at the moment the request went out. -/
def post_nonce_clean (e : Event) : Bool :=
  match e with
  | .http m _ ns => m != "POST" || ns.isNone
  | _ => true

/-- Every event of the world's trace is POST-clean. -/
def CleanW (w : World) : Prop := ∀ e ∈ w.events, post_nonce_clean e = true

/-- Events that do not record an HTTP exchange. -/
def no_http (e : Event) : Bool :=
  match e with
  | .http _ _ _ => false
  | _ => true

theorem post_clean_of_no_http {e : Event} (h : no_http e = true) :
    post_nonce_clean e = true := by
  cases e <;> simp_all [no_http, post_nonce_clean]

theorem cleanW_of_append {w w' : World} {l : List Event}
    (hw : CleanW w) (hl : ∀ e ∈ l, post_nonce_clean e = true)
    (h : w'.events = w.events ++ l) : CleanW w' := by
  intro e he
  rw [h] at he
  rcases List.mem_append.mp he with h1 | h2
  · exact hw e h1
  · exact hl e h2

/-- `on_response` only appends decoder-callback and pool events to the trace:
it performs no HTTP exchange of its own. -/
theorem on_response_events (req : Req) (res : HttpResponse) (w : World) :
    ∃ l, (on_response req res w).2.1.events = w.events ++ l ∧ l.all no_http = true := by
  unfold on_response md_acme_req_done run_on_json
  by_cases h1 : res.rv ≠ .APR_SUCCESS
  · exact ⟨[Event.pool_destroy], by simp [h1], rfl⟩
  · by_cases h2 : 200 ≤ res.status ∧ res.status < 300
    · cases hoj : req.on_json <;> cases hb : res.body <;> cases hor : req.on_res <;>
        simp [h1, h2, hoj, hb, hor, no_http]
    · simp only [h1, h2, if_false, if_true, ite_false, ite_true]
      split
      · exact ⟨[], by simp, rfl⟩
      · exact ⟨[Event.pool_destroy], by simp, rfl⟩

theorem cleanW_events_eq {w w' : World} (h : w'.events = w.events)
    (hw : CleanW w) : CleanW w' := by
  intro e he; rw [h] at he; exact hw e he

theorem md_http_HEAD_nonce_clean (u : String) {w : World} (hw : CleanW w) :
    CleanW (md_http_HEAD_nonce w u).2 := by
  have hclean : ∀ e ∈ [Event.http "HEAD" u w.acme.nonce], post_nonce_clean e = true := by
    intro e he; simp at he; subst he; simp [post_nonce_clean]
  unfold md_http_HEAD_nonce http_update_nonce
  cases hs : w.script with
  | nil => simp only [hs]; exact cleanW_of_append hw hclean rfl
  | cons res rest => simp only [hs]; exact cleanW_of_append hw hclean rfl

theorem new_nonce_call_clean {w : World} (hw : CleanW w) :
    CleanW (new_nonce_call w).2 := by
  unfold new_nonce_call acmev1_new_nonce acmev2_new_nonce
  cases h : w.acme.new_nonce_fn with
  | none => exact cleanW_events_eq rfl hw
  | some v => cases v <;> exact md_http_HEAD_nonce_clean _ hw

theorem md_http_request_clean (req : Req) (m u : String) {w : World}
    (hw : CleanW w) (hm : m = "POST" → w.acme.nonce = none) :
    CleanW (md_http_request w m u req).2.1 := by
  have hclean : ∀ e ∈ [Event.http m u w.acme.nonce], post_nonce_clean e = true := by
    intro e he; simp at he; subst he
    by_cases h : m = "POST"
    · simp [post_nonce_clean, h, hm h]
    · simp [post_nonce_clean, h]
  unfold md_http_request
  cases hs : w.script with
  | nil => simp only [hs]; exact cleanW_of_append hw hclean rfl
  | cons res rest =>
    simp only [hs]
    obtain ⟨l, hl, hall⟩ :=
      on_response_events req res
        { w with script := rest, events := w.events ++ [Event.http m u w.acme.nonce] }
    refine cleanW_of_append (w := w) hw ?_ (l := [Event.http m u w.acme.nonce] ++ l) ?_
    · intro e he
      rcases List.mem_append.mp he with h1 | h2
      · exact hclean e h1
      · exact post_clean_of_no_http (List.all_eq_true.mp hall e h2)
    · rw [← List.append_assoc]
      exact hl

theorem prepare_boot_clean (impl : World → AprStatus × World)
    (himpl : ∀ w, CleanW w → CleanW (impl w).2) {w : World} (hw : CleanW w) :
    (∀ s wo, prepare_boot impl w = .error (s, wo) → CleanW wo) ∧
    (∀ wo, prepare_boot impl w = .ok wo → CleanW wo) := by
  unfold prepare_boot
  by_cases hv : w.acme.version = .UNKNOWN
  · by_cases h1 : (impl w).1 = .APR_SUCCESS
    · simp only [hv, h1, if_true, ite_true]
      refine ⟨?_, ?_⟩
      · intro s wo h; simp at h
      · intro wo h
        simp only [Except.ok.injEq] at h
        subst h
        exact himpl w hw
    · simp only [hv, h1, if_true, ite_true, if_false, ite_false]
      refine ⟨?_, ?_⟩
      · intro s wo h
        simp only [Except.error.injEq] at h
        have hc := himpl w hw
        rw [h] at hc
        exact hc
      · intro wo h; simp at h
  · simp only [hv, if_false, ite_false]
    refine ⟨?_, ?_⟩
    · intro s wo h; simp at h
    · intro wo h
      simp only [Except.ok.injEq] at h
      subst h
      exact hw

theorem prepare_nonce_clean {w : World} (hw : CleanW w) :
    (∀ s wo, prepare_nonce w = .error (s, wo) → CleanW wo) ∧
    (∀ wo, prepare_nonce w = .ok wo → CleanW wo) := by
  unfold prepare_nonce
  by_cases hn : w.acme.nonce = none
  · by_cases h1 : (new_nonce_call w).1 = .APR_SUCCESS
    · simp only [hn, h1, if_true, ite_true]
      refine ⟨?_, ?_⟩
      · intro s wo h; simp at h
      · intro wo h
        simp only [Except.ok.injEq] at h
        subst h
        exact new_nonce_call_clean hw
    · simp only [hn, h1, if_true, ite_true, if_false, ite_false]
      refine ⟨?_, ?_⟩
      · intro s wo h
        simp only [Except.error.injEq] at h
        have hc := new_nonce_call_clean hw
        rw [h] at hc
        exact hc
      · intro wo h; simp at h
  · simp only [hn, if_false, ite_false]
    refine ⟨?_, ?_⟩
    · intro s wo h; simp at h
    · intro wo h
      simp only [Except.ok.injEq] at h
      subst h
      exact hw

theorem prepare_hdrs_facts (req : Req) (w : World) :
    (prepare_hdrs req w).2.acme.nonce = none ∧
    (prepare_hdrs req w).1.method = req.method ∧
    (prepare_hdrs req w).2.events = w.events := by
  unfold prepare_hdrs
  split <;> exact ⟨rfl, rfl, rfl⟩

theorem req_send_prepare_cases (impl : World → AprStatus × World)
    (himpl : ∀ w, CleanW w → CleanW (impl w).2) (req : Req) {w : World} (hw : CleanW w) :
    (∀ s wo, req_send_prepare impl req w = .error (s, wo) → CleanW wo) ∧
    (∀ ro wo, req_send_prepare impl req w = .ok (ro, wo) →
       CleanW wo ∧ ro.method = req.method ∧ wo.acme.nonce = none ∨
       (req.method = "GET" ∨ req.method = "HEAD") ∧ ro = req ∧ wo = w) := by
  unfold req_send_prepare
  by_cases hm : req.method = "GET" ∨ req.method = "HEAD"
  · rw [if_pos hm]
    constructor
    · intro s wo h; simp at h
    · intro ro wo h
      simp only [Except.ok.injEq, Prod.mk.injEq] at h
      exact Or.inr ⟨hm, h.1.symm, h.2.symm⟩
  · rw [if_neg hm]
    generalize hboot : prepare_boot impl w = rboot
    cases rboot with
    | error e =>
      dsimp only
      obtain ⟨s0, w0⟩ := e
      constructor
      · intro s wo h
        simp only [Except.error.injEq, Prod.mk.injEq] at h
        obtain ⟨h1', h2'⟩ := h; subst h2'
        exact (prepare_boot_clean impl himpl hw).1 s0 w0 hboot
      · intro ro wo h; simp at h
    | ok w1 =>
      dsimp only
      have hw1 : CleanW w1 := (prepare_boot_clean impl himpl hw).2 w1 hboot
      generalize hnon : prepare_nonce w1 = rnon
      cases rnon with
      | error e =>
        dsimp only
        obtain ⟨s0, w0⟩ := e
        constructor
        · intro s wo h
          simp only [Except.error.injEq, Prod.mk.injEq] at h
          obtain ⟨h1', h2'⟩ := h; subst h2'
          exact (prepare_nonce_clean hw1).1 s0 w0 hnon
        · intro ro wo h; simp at h
      | ok w2 =>
        dsimp only
        have hw2 : CleanW w2 := (prepare_nonce_clean hw1).2 w2 hnon
        constructor
        · intro s wo h; simp at h
        · intro ro wo h
          simp only [Except.ok.injEq] at h
          obtain ⟨hn, hme, hev⟩ := prepare_hdrs_facts req w2
          have h1' : (prepare_hdrs req w2).1 = ro := by rw [h]
          have h2' : (prepare_hdrs req w2).2 = wo := by rw [h]
          refine Or.inl ⟨?_, ?_, ?_⟩
          · exact cleanW_events_eq (by rw [← h2']; exact hev) hw2
          · rw [← h1']; exact hme
          · rw [← h2']; exact hn

theorem md_acme_req_done_clean (req : Req) {w : World} (hw : CleanW w) :
    CleanW (md_acme_req_done req w).2 := by
  refine cleanW_of_append hw ?_ rfl
  intro e he; simp at he; subst he; rfl

theorem md_acme_req_body_init_facts (req : Req) (p : MdJson) (w : World) :
    (md_acme_req_body_init req p w).2.2.acme = w.acme ∧
    (md_acme_req_body_init req p w).2.1.method = req.method ∧
    ∃ l, (md_acme_req_body_init req p w).2.2.events = w.events ++ l ∧
      l.all no_http = true := by
  unfold md_acme_req_body_init acmev1_req_init acmev2_req_init md_jws_sign md_json_writep
  generalize w.acme.req_init_fn = f
  cases f with
  | none => exact ⟨rfl, rfl, [], by simp, rfl⟩
  | some v =>
    cases v with
    | v1 =>
      generalize w.acme.acct = a
      cases a with
      | none => exact ⟨rfl, rfl, [], by simp, rfl⟩
      | some acct => exact ⟨rfl, rfl, [Event.sign req.prot_hdrs none], rfl, rfl⟩
    | v2 =>
      generalize w.acme.acct = a
      cases a with
      | none => exact ⟨rfl, rfl, [], by simp, rfl⟩
      | some acct =>
        exact ⟨rfl, rfl, [Event.sign req.prot_hdrs (some acct.url)], rfl, rfl⟩

/-- The serialize-and-dispatch stage preserves POST-cleanness: whatever it
sends, a POST only goes out when the reservoir is empty. -/
theorem req_send_dispatch_clean (ini : AprStatus × Req × World)
    (hw2 : CleanW ini.2.2)
    (hpost : ini.2.1.method = "POST" → ini.2.2.acme.nonce = none) :
    CleanW (req_send_dispatch ini).2.1 := by
  have hdisp : ∀ (w2 : World) (r : Req), CleanW w2 →
      (r.method = "POST" → w2.acme.nonce = none) →
      CleanW (if r.method = "GET" then md_http_request w2 "GET" r.url r
              else if r.method = "POST" then md_http_request w2 "POST" r.url r
              else if r.method = "HEAD" then md_http_request w2 "HEAD" r.url r
              else (.APR_ENOTIMPL, w2, some r)).2.1 := by
    intro w2 r hw hpo
    by_cases hg : r.method = "GET"
    · rw [if_pos hg]
      exact md_http_request_clean _ _ _ hw (fun h => absurd h (by decide))
    · rw [if_neg hg]
      by_cases hpm : r.method = "POST"
      · rw [if_pos hpm]
        exact md_http_request_clean _ _ _ hw (fun _ => hpo hpm)
      · rw [if_neg hpm]
        by_cases hh : r.method = "HEAD"
        · rw [if_pos hh]
          exact md_http_request_clean _ _ _ hw (fun h => absurd h (by decide))
        · rw [if_neg hh]
          exact hw
  unfold req_send_dispatch
  dsimp only
  split
  all_goals first
    | exact hdisp _ _ hw2 hpost
    | exact md_acme_req_done_clean ini.2.1 hw2
    | (split
       all_goals first
         | exact hdisp _ _ hw2 hpost
         | exact md_acme_req_done_clean ini.2.1 hw2)

/-- Master invariant of the executor: with a bootstrap entry point that
preserves POST-cleanness of the trace, every run of the executor preserves
it — every POST exchange it performs goes out with an empty reservoir. -/
theorem req_send_g_clean (impl : World → AprStatus × World)
    (himpl : ∀ w, CleanW w → CleanW (impl w).2) :
    ∀ fuel req w, CleanW w → CleanW (req_send_g impl fuel req w).2 := by
  intro fuel
  induction fuel using Nat.strong_induction_on with
  | _ fuel ih =>
    intro req w hw
    unfold req_send_g
    generalize hp : req_send_prepare impl req w = rp
    cases rp with
    | error e =>
      obtain ⟨s0, w0⟩ := e
      dsimp only
      exact (req_send_prepare_cases impl himpl req hw).1 s0 w0 hp
    | ok p =>
      obtain ⟨req1, w1⟩ := p
      dsimp only
      have hcases := (req_send_prepare_cases impl himpl req hw).2 req1 w1 hp
      have hw1 : CleanW w1 := by
        rcases hcases with ⟨h1, _, _⟩ | ⟨_, _, h3⟩
        · exact h1
        · rw [h3]; exact hw
      have hpost1 : req1.method = "POST" → w1.acme.nonce = none := by
        rcases hcases with ⟨_, _, h3⟩ | ⟨hgh, h2, _⟩
        · intro _; exact h3
        · intro hpm
          rw [h2] at hpm
          rcases hgh with hg | hh
          · rw [hg] at hpm; exact absurd hpm (by decide)
          · rw [hh] at hpm; exact absurd hpm (by decide)
      cases hoi : req1.on_init with
      | none =>
        dsimp only
        have hd : CleanW (req_send_dispatch (.APR_SUCCESS, req1, w1)).2.1 :=
          req_send_dispatch_clean (.APR_SUCCESS, req1, w1) hw1 hpost1
        by_cases he : (req_send_dispatch (.APR_SUCCESS, req1, w1)).1 = .APR_EAGAIN
        · rw [if_pos he]
          cases fuel with
          | zero => exact hd
          | succ n =>
            dsimp only
            cases ho : (req_send_dispatch (.APR_SUCCESS, req1, w1)).2.2 with
            | none => exact hd
            | some r => exact ih n (Nat.lt_succ_self n) _ _ hd
        · rw [if_neg he]
          exact hd
      | bodyInit payload =>
        dsimp only
        obtain ⟨ha, hm', l, hl, hall⟩ := md_acme_req_body_init_facts req1 payload w1
        have hd : CleanW (req_send_dispatch (md_acme_req_body_init req1 payload w1)).2.1 := by
          refine req_send_dispatch_clean (md_acme_req_body_init req1 payload w1) ?_ ?_
          · exact cleanW_of_append hw1
              (fun e he => post_clean_of_no_http (List.all_eq_true.mp hall e he)) hl
          · intro hpm
            rw [ha]
            exact hpost1 (by rw [← hm']; exact hpm)
        by_cases he : (req_send_dispatch (md_acme_req_body_init req1 payload w1)).1 = .APR_EAGAIN
        · rw [if_pos he]
          cases fuel with
          | zero => exact hd
          | succ n =>
            dsimp only
            cases ho : (req_send_dispatch (md_acme_req_body_init req1 payload w1)).2.2 with
            | none => exact hd
            | some r => exact ih n (Nat.lt_succ_self n) _ _ hd
        · rw [if_neg he]
          exact hd

theorem md_acme_get_json_clean (w : World) (url : String) (hw : CleanW w) :
    CleanW (md_acme_get_json w url).2.1 := by
  unfold md_acme_get_json md_acme_req_create
  dsimp only
  apply req_send_g_clean dead_setup (fun w hw => hw)
  refine cleanW_of_append (w := { w with json_ctx := none })
    (fun e he => hw e he) ?_ rfl
  intro e he; simp at he; subst he; rfl

theorem md_acme_setup_clean (w : World) (hw : CleanW w) :
    CleanW (md_acme_setup w).2 := by
  have core : ∀ w2 : World, CleanW w2 →
      CleanW (let gj := md_acme_get_json w2 w2.acme.url
              if gj.1 ≠ .APR_SUCCESS then
                (gj.1, gj.2.1)
              else
                match gj.2.2 with
                | none => (.APR_EINVAL, gj.2.1)
                | some json =>
                  let acme := setup_detect gj.2.1.acme json
                  if acme.version = .UNKNOWN then (.APR_EINVAL, { gj.2.1 with acme := acme })
                  else (gj.1, { gj.2.1 with acme := acme })).2 := by
    intro w2 hw2
    dsimp only
    generalize hg : md_acme_get_json w2 w2.acme.url = gj
    have hgc : CleanW gj.2.1 := by rw [← hg]; exact md_acme_get_json_clean w2 _ hw2
    by_cases h1 : gj.1 ≠ .APR_SUCCESS
    · rw [if_pos h1]; exact hgc
    · rw [if_neg h1]
      cases ho : gj.2.2 with
      | none => exact hgc
      | some json =>
        dsimp only
        split
        · exact fun e he => hgc e he
        · exact fun e he => hgc e he
  unfold md_acme_setup
  dsimp only
  by_cases hh : w.acme.http
  · rw [if_pos hh]
    exact core _ (fun e he => hw e he)
  · rw [if_neg hh]
    exact core _ (fun e he => hw e he)

theorem md_acme_req_send_clean (req : Req) (w : World) (hw : CleanW w) :
    CleanW (md_acme_req_send req w).2 :=
  req_send_g_clean md_acme_setup (fun w hw => md_acme_setup_clean w hw)
    req.max_retries req w hw

theorem md_acme_POST_clean (w : World) (url : String) (oi : OnInitSpec)
    (oj : OnJsonSpec) (orr : OnResSpec) (hw : CleanW w) :
    CleanW (md_acme_POST w url oi oj orr).2 := by
  unfold md_acme_POST md_acme_req_create
  dsimp only
  apply md_acme_req_send_clean
  refine cleanW_of_append hw ?_ rfl
  intro e he; simp at he; subst he; rfl

theorem req_update_nonce_absorbs (acme : MdAcme) (hdrs : List (String × String))
    (n : String) (hn : t_get hdrs "Replay-Nonce" = some n) :
    (req_update_nonce acme hdrs).nonce = some n := by
  unfold req_update_nonce
  rw [hn]

theorem on_response_nonce (req : Req) (res : HttpResponse) (w : World) (n : String)
    (hrv : res.rv = .APR_SUCCESS)
    (hn : t_get res.headers "Replay-Nonce" = some n) :
    (on_response req res w).2.1.acme.nonce = some n := by
  have hru : (req_update_nonce w.acme res.headers).nonce = some n :=
    req_update_nonce_absorbs w.acme res.headers n hn
  unfold on_response md_acme_req_done run_on_json
  rw [if_neg (by simp [hrv])]
  by_cases h2 : 200 ≤ res.status ∧ res.status < 300
  · cases hoj : req.on_json <;> cases hb : res.body <;> cases hor : req.on_res <;>
      simp [h2, hoj, hb, hor, hru]
  · simp only [h2, ite_false, if_false]
    split
    · exact hru
    · exact hru

/-! ## Claim C2 — nonce reservoir monotonicity and drain-on-send -/

/-- C2: after any HTTP exchange whose transport succeeds and whose response
headers carry `Replay-Nonce: N`, the engine's reservoir holds exactly `N`,
overwriting any prior value — at the absorption primitive `req_update_nonce`,
at the refill callback `http_update_nonce`, and at the executor callback
`on_response`.  Moreover every POST exchange of any executor run goes out
with an empty reservoir (the nonce is consumed at the send and the reservoir
stays empty until the next response is observed): the trace invariant
`CleanW` is preserved by `md_acme_req_send`. -/
theorem C2_nonce_reservoir :
    (∀ (acme : MdAcme) (hdrs : List (String × String)) (n : String),
       t_get hdrs "Replay-Nonce" = some n →
       (req_update_nonce acme hdrs).nonce = some n) ∧
    (∀ (res : HttpResponse) (w : World) (n : String),
       res.rv = .APR_SUCCESS → t_get res.headers "Replay-Nonce" = some n →
       (http_update_nonce res w).2.acme.nonce = some n) ∧
    (∀ (req : Req) (res : HttpResponse) (w : World) (n : String),
       res.rv = .APR_SUCCESS → t_get res.headers "Replay-Nonce" = some n →
       (on_response req res w).2.1.acme.nonce = some n) ∧
    (∀ (req : Req) (w : World), CleanW w → CleanW (md_acme_req_send req w).2) := by
  refine ⟨req_update_nonce_absorbs, ?_, on_response_nonce, md_acme_req_send_clean⟩
  intro res w n _ hn
  unfold http_update_nonce
  exact req_update_nonce_absorbs w.acme res.headers n hn

/-- Witness for C2 at concrete inputs. -/
theorem C2_nonce_reservoir_witness :
    (req_update_nonce acmeV2 [("Replay-Nonce", "n9")]).nonce = some "n9" ∧
    CleanW (md_acme_req_send
      { method := "HEAD", url := "https://ca/x", max_retries := 0 }
      { acme := acmeV2 }).2 :=
  ⟨C2_nonce_reservoir.1 acmeV2 [("Replay-Nonce", "n9")] "n9" (by decide),
   C2_nonce_reservoir.2.2.2
     { method := "HEAD", url := "https://ca/x", max_retries := 0 }
     { acme := acmeV2 } (by intro e he; simp at he)⟩

/-! ## Claim C10 — decoder precedence in `on_response` -/

/-- C10: on a 2xx response with `on_json` set and a body that parses as JSON,
`on_res` is never invoked and the `on_json` result — error or not — is
surfaced to the caller; `on_res` is only ever invoked when `on_json` is
absent or the body parse reports "not JSON content". -/
theorem C10_decoder_order :
    (∀ (req : Req) (res : HttpResponse) (w : World) (f : MdJson → AprStatus) (j : MdJson),
       res.rv = .APR_SUCCESS → 200 ≤ res.status → res.status < 300 →
       req.on_json = .pureFn f → res.body = .json j →
       (on_response req res w).1 = f j ∧
       (Event.cb_res ∉ w.events → Event.cb_res ∉ (on_response req res w).2.1.events)) ∧
    (∀ (req : Req) (res : HttpResponse) (w : World),
       Event.cb_res ∈ (on_response req res w).2.1.events →
       Event.cb_res ∈ w.events ∨ req.on_json = OnJsonSpec.none ∨ res.body = .notJson) := by
  constructor
  · intro req res w f j hrv h2a h2b hoj hb
    unfold on_response run_on_json md_acme_req_done
    rw [if_neg (by simp [hrv])]
    rw [if_pos ⟨h2a, h2b⟩]
    simp only [hoj, hb]
    constructor
    · rfl
    · intro hnm hmem
      simp at hmem
      exact hnm hmem
  · intro req res w
    unfold on_response run_on_json md_acme_req_done
    by_cases h1 : res.rv ≠ .APR_SUCCESS
    · rw [if_pos h1]
      intro hmem
      simp only [List.mem_append, List.mem_singleton] at hmem
      rcases hmem with hmem | hmem
      · exact Or.inl hmem
      · exact Event.noConfusion hmem
    · rw [if_neg h1]
      by_cases h2 : 200 ≤ res.status ∧ res.status < 300
      · rw [if_pos h2]
        cases hoj : req.on_json <;> cases hb : res.body <;> cases hor : req.on_res <;>
          dsimp only <;> intro hmem <;> simp at hmem <;> tauto
      · rw [if_neg h2]
        dsimp only
        split
        · intro hmem; exact Or.inl hmem
        · intro hmem
          simp only [List.mem_append, List.mem_singleton] at hmem
          rcases hmem with hmem | hmem
          · exact Or.inl hmem
          · exact Event.noConfusion hmem

/-- Witness for C10 at a concrete 2xx response whose decoder reports an
error. -/
theorem C10_decoder_order_witness :
    (on_response
      { method := "GET", url := "https://ca/x", max_retries := 0,
        on_json := .pureFn (fun _ => .APR_EGENERAL),
        on_res := .pureFn (fun _ => .APR_SUCCESS) }
      (okJsonResp "n1") { acme := acmeV2 }).1 = .APR_EGENERAL :=
  (C10_decoder_order.1
    { method := "GET", url := "https://ca/x", max_retries := 0,
      on_json := .pureFn (fun _ => .APR_EGENERAL),
      on_res := .pureFn (fun _ => .APR_SUCCESS) }
    (okJsonResp "n1") { acme := acmeV2 } (fun _ => .APR_EGENERAL)
    (.obj [("ok", .str "true")]) rfl (by decide) (by decide) rfl rfl).1

/-! ## Claim C4 — the problem classifier -/

/-- The classifier as the specification words it: strip `urn:ietf:params:`
if present, otherwise `urn:`, then compare the remainder case-insensitively
against the static table; `Generic` for every other URN.  Reference model for
the refinement comparison of claim C4. -/
def problem_status_get_specModel (type_ : String) : AprStatus :=
  let t := strip_urn type_.data
  match Problems.find? (fun p => t.map Char.toLower == p.1.data.map Char.toLower) with
  | some p => p.2
  | none => .APR_EGENERAL

/-- C4 counterexample: the code compares with `apr_strnatcasecmp`, which also
skips ASCII whitespace; `"acme:error:bad nonce"` does not match any table
entry case-insensitively, so the claim as stated predicts `Generic`
(`APR_EGENERAL`), but the code classifies it as the recoverable `badNonce`
kind (`APR_EAGAIN`). -/
theorem C4_classifier_counterexample :
    problem_status_get "acme:error:bad nonce" = .APR_EAGAIN ∧
    problem_status_get_specModel "acme:error:bad nonce" = .APR_EGENERAL ∧
    problem_status_get "acme:error:bad nonce" ≠
      problem_status_get_specModel "acme:error:bad nonce" :=
  ⟨by decide, by decide, by decide⟩

/-- C4 (amended): the classifier is a pure function of the `type` URN; it
strips `urn:ietf:params:` if present, otherwise `urn:`, then compares the
remainder against the static table using natural-order case-insensitive
comparison (which additionally ignores ASCII whitespace).  Every listed URN
maps to its documented kind — bare, under both recognized prefixes, and
upper-cased — and every URN whose stripped remainder matches no table entry
under that comparison maps to `Generic` (`APR_EGENERAL`). -/
theorem C4_classifier :
    (∀ p ∈ Problems,
       problem_status_get p.1 = p.2 ∧
       problem_status_get ("urn:" ++ p.1) = p.2 ∧
       problem_status_get ("urn:ietf:params:" ++ p.1) = p.2 ∧
       problem_status_get (String.mk (p.1.data.map Char.toUpper)) = p.2) ∧
    (∀ s : String,
       Problems.all
         (fun p => !(decide (apr_strnatcasecmp ⟨strip_urn s.data⟩ p.1 = 0))) = true →
       problem_status_get s = .APR_EGENERAL) := by
  constructor
  · decide
  · intro s h
    unfold problem_status_get
    dsimp only
    have hf : Problems.find?
        (fun p => apr_strnatcasecmp ⟨strip_urn s.data⟩ p.1 = 0) = none := by
      rw [List.find?_eq_none]
      intro x hx
      have hx' := List.all_eq_true.mp h x hx
      simpa using hx'
    rw [hf]

/-- Witness for C4 at concrete inputs. -/
theorem C4_classifier_witness :
    problem_status_get "urn:ietf:params:acme:error:userActionRequired" = .APR_EAGAIN ∧
    problem_status_get "urn:example:other" = .APR_EGENERAL :=
  ⟨(C4_classifier.1 ("acme:error:userActionRequired", .APR_EAGAIN) (by decide)).2.2.1,
   C4_classifier.2 "urn:example:other" (by decide)⟩

/-! ## Step-evaluation lemmas for the executor -/

/-- A signed request on a bootstrapped engine with a held nonce skips setup
and refill: the preparation reduces to the protected-header block. -/
theorem prepare_of_ready (impl : World → AprStatus × World) (req : Req) (w : World)
    (n : String)
    (hm : ¬(req.method = "GET" ∨ req.method = "HEAD"))
    (hv : w.acme.version ≠ .UNKNOWN)
    (hn : w.acme.nonce = some n) :
    req_send_prepare impl req w = .ok (prepare_hdrs req w) := by
  unfold req_send_prepare prepare_boot prepare_nonce
  rw [if_neg hm, if_neg hv]
  dsimp only
  rw [if_neg (by rw [hn]; exact fun h => Option.noConfusion h)]

/-- The header block does not touch the callbacks. -/
theorem prepare_hdrs_on_init (req : Req) (w : World) :
    (prepare_hdrs req w).1.on_init = req.on_init := by
  unfold prepare_hdrs
  split <;> rfl

/-- With a strategy selector assigned but no bound account, the body
initializer fails with `APR_EINVAL` before the signing capability runs. -/
theorem body_init_no_acct (req : Req) (p : MdJson) (w : World) (v : VSel)
    (hf : w.acme.req_init_fn = some v) (ha : w.acme.acct = none) :
    md_acme_req_body_init req p w = (.APR_EINVAL, req, w) := by
  unfold md_acme_req_body_init acmev1_req_init acmev2_req_init
  rw [hf]
  cases v <;> rw [ha]

/-- A failed init short-circuits the dispatch: the request is destroyed and
no HTTP call is made. -/
theorem dispatch_of_init_fail (ini : AprStatus × Req × World)
    (hfail : ini.1 ≠ .APR_SUCCESS) :
    req_send_dispatch ini = (ini.1, (md_acme_req_done ini.2.1 ini.2.2).2, none) := by
  unfold req_send_dispatch
  dsimp only
  rw [if_neg hfail, if_neg hfail]

/-- Core of claim C6 at the executor level: a POST on a bootstrapped engine
holding a nonce, whose `on_init` routes through the body initializer, fails
with `APR_EINVAL` when no account is bound; the only effect is the
destruction of the request's pool (no signing, no HTTP). -/
theorem send_no_acct (impl : World → AprStatus × World) (fuel : Nat)
    (req : Req) (w : World) (p : MdJson) (n : String) (v : VSel)
    (hm : req.method = "POST")
    (hoi : req.on_init = .bodyInit p)
    (hv : w.acme.version ≠ .UNKNOWN)
    (hn : w.acme.nonce = some n)
    (hf : w.acme.req_init_fn = some v)
    (ha : w.acme.acct = none) :
    req_send_g impl fuel req w =
      (.APR_EINVAL, { w with acme := { w.acme with nonce := none },
                             events := w.events ++ [Event.pool_destroy] }) := by
  rw [req_send_g]
  rw [prepare_of_ready impl req w n (by rw [hm]; simp) hv hn]
  dsimp only
  rw [prepare_hdrs_on_init req w, hoi]
  dsimp only
  rw [body_init_no_acct (prepare_hdrs req w).1 p (prepare_hdrs req w).2 v hf ha]
  rw [dispatch_of_init_fail
    (.APR_EINVAL, (prepare_hdrs req w).1, (prepare_hdrs req w).2)
    (fun h => AprStatus.noConfusion h)]
  dsimp only
  rw [if_neg (fun h => AprStatus.noConfusion h)]
  rfl

/-! ## Claim C6 — signed-request precondition -/

/-- C6: a POST issued through the facade while no account is bound (on a
bootstrapped engine holding a nonce) fails with `APR_EINVAL`, and neither the
signing capability nor any HTTP POST is invoked: the complete trace is the
request pool's creation and destruction. -/
theorem C6_no_account (w : World) (url : String) (p : MdJson) (n : String)
    (oj : OnJsonSpec) (orr : OnResSpec) (v : VSel)
    (hv : w.acme.version ≠ .UNKNOWN)
    (hn : w.acme.nonce = some n)
    (hf : w.acme.req_init_fn = some v)
    (ha : w.acme.acct = none)
    (he : w.events = []) :
    (md_acme_POST w url (.bodyInit p) oj orr).1 = .APR_EINVAL ∧
    (md_acme_POST w url (.bodyInit p) oj orr).2.events =
      [Event.pool_create, Event.pool_destroy] := by
  have core := send_no_acct md_acme_setup w.acme.max_retries
    { method := "POST", url := url, prot_hdrs := [],
      max_retries := w.acme.max_retries, on_init := .bodyInit p,
      on_json := oj, on_res := orr }
    { acme := w.acme, script := w.script,
      events := w.events ++ [Event.pool_create], json_ctx := w.json_ctx }
    p n v rfl rfl hv hn hf ha
  unfold md_acme_POST md_acme_req_create md_acme_req_send
  dsimp only
  rw [core]
  refine ⟨rfl, ?_⟩
  dsimp only
  rw [he]
  rfl

/-- Witness for C6 at a concrete engine. -/
theorem C6_no_account_witness :
    (md_acme_POST { acme := { acmeV2 with acct := none } } "https://ca/order"
      (.bodyInit (.obj [])) (.pureFn (fun _ => .APR_SUCCESS)) .none).1 =
      .APR_EINVAL :=
  (C6_no_account { acme := { acmeV2 with acct := none } } "https://ca/order"
    (.obj []) "n0" (.pureFn (fun _ => .APR_SUCCESS)) .none .v2
    (by decide) (by decide) (by decide) (by decide) (by decide)).1

/-! ## More step-evaluation lemmas -/

/-- The header block on a V2 engine holding nonce `n`: `nonce` and `url` are
set in the protected headers and the reservoir is drained. -/
theorem prepare_hdrs_eq_v2 (req : Req) (w : World) (n : String)
    (hn : w.acme.nonce = some n) (hv : w.acme.version = .V2) :
    prepare_hdrs req w =
      ({ req with prot_hdrs := t_set (t_set req.prot_hdrs "nonce" n) "url" req.url },
       { w with acme := { w.acme with nonce := none } }) := by
  unfold prepare_hdrs
  rw [hn, hv]
  simp only [Option.getD_some]
  rw [if_pos (show versionMajor AcmeVersion.V2 > 1 by decide)]

/-- The header block on a V1 engine holding nonce `n`: only `nonce` is set. -/
theorem prepare_hdrs_eq_v1 (req : Req) (w : World) (n : String)
    (hn : w.acme.nonce = some n) (hv : w.acme.version = .V1) :
    prepare_hdrs req w =
      ({ req with prot_hdrs := t_set req.prot_hdrs "nonce" n },
       { w with acme := { w.acme with nonce := none } }) := by
  unfold prepare_hdrs
  rw [hn, hv]
  simp only [Option.getD_some]
  rw [if_neg (show ¬ versionMajor AcmeVersion.V1 > 1 by decide)]

/-- The V2 body initializer with a bound account: sign with the account URL
as key id; the protected headers go to the signing capability as they are. -/
theorem body_init_acct_v2 (req : Req) (p : MdJson) (w : World) (a : MdAcmeAcct)
    (hf : w.acme.req_init_fn = some .v2) (ha : w.acme.acct = some a) :
    md_acme_req_body_init req p w =
      (.APR_SUCCESS,
       { req with req_json := some (.jws (md_json_ser p) req.prot_hdrs (some a.url)) },
       { w with events := w.events ++ [Event.sign req.prot_hdrs (some a.url)] }) := by
  unfold md_acme_req_body_init acmev2_req_init md_json_writep md_jws_sign
  rw [hf, ha]

/-- The V1 body initializer with a bound account: sign with NO key id. -/
theorem body_init_acct_v1 (req : Req) (p : MdJson) (w : World) (a : MdAcmeAcct)
    (hf : w.acme.req_init_fn = some .v1) (ha : w.acme.acct = some a) :
    md_acme_req_body_init req p w =
      (.APR_SUCCESS,
       { req with req_json := some (.jws (md_json_ser p) req.prot_hdrs none) },
       { w with events := w.events ++ [Event.sign req.prot_hdrs none] }) := by
  unfold md_acme_req_body_init acmev1_req_init md_json_writep md_jws_sign
  rw [hf, ha]

/-- Dispatch of a prepared POST whose transport script is exhausted: the POST
attempt is recorded (with the reservoir content at the send), the transport
errors out, and the callback never runs. -/
theorem dispatch_post_empty_script (ini : AprStatus × Req × World) (j : MdJson)
    (hini1 : ini.1 = .APR_SUCCESS)
    (hj : ini.2.1.req_json = some j)
    (hm : ini.2.1.method = "POST")
    (hs : ini.2.2.script = []) :
    req_send_dispatch ini =
      (.other 999,
       { ini.2.2 with events :=
           ini.2.2.events ++ [Event.http "POST" ini.2.1.url ini.2.2.acme.nonce] },
       some ini.2.1) := by
  unfold req_send_dispatch md_http_request md_json_writep
  dsimp only
  rw [hj]
  dsimp only
  rw [hini1]
  simp only [ite_self, eq_self_iff_true, if_true]
  rw [hm]
  rw [if_neg (show ¬ ("POST" : String) = "GET" by decide), if_pos rfl]
  rw [hs]

/-- Dispatch of a prepared POST with a scripted response: the POST attempt is
recorded and the response is handed to `on_response`. -/
theorem dispatch_post_script_cons (ini : AprStatus × Req × World) (j : MdJson)
    (res : HttpResponse) (rest : List HttpResponse)
    (hini1 : ini.1 = .APR_SUCCESS)
    (hj : ini.2.1.req_json = some j)
    (hm : ini.2.1.method = "POST")
    (hs : ini.2.2.script = res :: rest) :
    req_send_dispatch ini =
      on_response ini.2.1 res
        { ini.2.2 with
          script := rest,
          events := ini.2.2.events ++ [Event.http "POST" ini.2.1.url ini.2.2.acme.nonce] } := by
  unfold req_send_dispatch md_http_request md_json_writep
  dsimp only
  rw [hj]
  dsimp only
  rw [hini1]
  simp only [ite_self, eq_self_iff_true, if_true]
  rw [hm]
  rw [if_neg (show ¬ ("POST" : String) = "GET" by decide), if_pos rfl]
  rw [hs]

/-- Core of claim C5 for V2: a fresh POST on a bootstrapped V2 engine with a
bound account and held nonce `n` signs with protected headers
`nonce`/`url` and the account URL as key id, then sends exactly one POST with
the reservoir drained (transport scripted empty: the claim is about what goes
into the signing and out on the wire). -/
theorem send_signed_v2 (impl : World → AprStatus × World) (fuel : Nat)
    (req : Req) (w : World) (p : MdJson) (n : String) (a : MdAcmeAcct)
    (hm : req.method = "POST")
    (hoi : req.on_init = .bodyInit p)
    (hv : w.acme.version = .V2)
    (hf : w.acme.req_init_fn = some .v2)
    (hn : w.acme.nonce = some n)
    (ha : w.acme.acct = some a)
    (hs : w.script = []) :
    req_send_g impl fuel req w =
      (.other 999,
       { w with
         acme := { w.acme with nonce := none },
         events := (w.events ++
             [Event.sign (t_set (t_set req.prot_hdrs "nonce" n) "url" req.url)
               (some a.url)]) ++
           [Event.http "POST" req.url none] }) := by
  have hpw := prepare_hdrs_eq_v2 req w n hn hv
  have hf' : (prepare_hdrs req w).2.acme.req_init_fn = some VSel.v2 := by
    rw [hpw]; exact hf
  have ha' : (prepare_hdrs req w).2.acme.acct = some a := by
    rw [hpw]; exact ha
  have hmm : (prepare_hdrs req w).1.method = "POST" := by
    rw [hpw]; exact hm
  have hss : (prepare_hdrs req w).2.script = [] := by
    rw [hpw]; exact hs
  rw [req_send_g]
  rw [prepare_of_ready impl req w n (by rw [hm]; simp)
      (by rw [hv]; exact fun h => AcmeVersion.noConfusion h) hn]
  dsimp only
  rw [prepare_hdrs_on_init req w, hoi]
  dsimp only
  rw [body_init_acct_v2 (prepare_hdrs req w).1 p (prepare_hdrs req w).2 a hf' ha']
  rw [dispatch_post_empty_script
    (.APR_SUCCESS,
     { (prepare_hdrs req w).1 with
       req_json :=
         some (.jws (md_json_ser p) (prepare_hdrs req w).1.prot_hdrs (some a.url)) },
     { (prepare_hdrs req w).2 with
       events :=
         (prepare_hdrs req w).2.events ++
           [Event.sign (prepare_hdrs req w).1.prot_hdrs (some a.url)] })
    (.jws (md_json_ser p) (prepare_hdrs req w).1.prot_hdrs (some a.url))
    rfl rfl hmm hss]
  dsimp only
  rw [if_neg (fun h => AprStatus.noConfusion h)]
  rw [hpw]

/-- Core of claim C5 for V1: the same send on a V1 engine signs with only the
`nonce` protected header and no key id. -/
theorem send_signed_v1 (impl : World → AprStatus × World) (fuel : Nat)
    (req : Req) (w : World) (p : MdJson) (n : String) (a : MdAcmeAcct)
    (hm : req.method = "POST")
    (hoi : req.on_init = .bodyInit p)
    (hv : w.acme.version = .V1)
    (hf : w.acme.req_init_fn = some .v1)
    (hn : w.acme.nonce = some n)
    (ha : w.acme.acct = some a)
    (hs : w.script = []) :
    req_send_g impl fuel req w =
      (.other 999,
       { w with
         acme := { w.acme with nonce := none },
         events := (w.events ++
             [Event.sign (t_set req.prot_hdrs "nonce" n) none]) ++
           [Event.http "POST" req.url none] }) := by
  have hpw := prepare_hdrs_eq_v1 req w n hn hv
  have hf' : (prepare_hdrs req w).2.acme.req_init_fn = some VSel.v1 := by
    rw [hpw]; exact hf
  have ha' : (prepare_hdrs req w).2.acme.acct = some a := by
    rw [hpw]; exact ha
  have hmm : (prepare_hdrs req w).1.method = "POST" := by
    rw [hpw]; exact hm
  have hss : (prepare_hdrs req w).2.script = [] := by
    rw [hpw]; exact hs
  rw [req_send_g]
  rw [prepare_of_ready impl req w n (by rw [hm]; simp)
      (by rw [hv]; exact fun h => AcmeVersion.noConfusion h) hn]
  dsimp only
  rw [prepare_hdrs_on_init req w, hoi]
  dsimp only
  rw [body_init_acct_v1 (prepare_hdrs req w).1 p (prepare_hdrs req w).2 a hf' ha']
  rw [dispatch_post_empty_script
    (.APR_SUCCESS,
     { (prepare_hdrs req w).1 with
       req_json :=
         some (.jws (md_json_ser p) (prepare_hdrs req w).1.prot_hdrs none) },
     { (prepare_hdrs req w).2 with
       events :=
         (prepare_hdrs req w).2.events ++
           [Event.sign (prepare_hdrs req w).1.prot_hdrs none] })
    (.jws (md_json_ser p) (prepare_hdrs req w).1.prot_hdrs none)
    rfl rfl hmm hss]
  dsimp only
  rw [if_neg (fun h => AprStatus.noConfusion h)]
  rw [hpw]

/-! ## Claim C5 — protected headers of signed requests -/

/-- C5: every signed request issued through the facade on a V2 engine with a
bound account passes to the signing capability protected headers holding the
consumed nonce under `nonce` and the request target under `url`, with the
bound account's URL as key id; on a V1 engine the headers hold the nonce but
no `url` entry, and no key id is passed. -/
theorem C5_protected_headers :
    (∀ (w : World) (url : String) (p : MdJson) (n : String) (a : MdAcmeAcct),
       w.acme.version = .V2 → w.acme.req_init_fn = some .v2 →
       w.acme.nonce = some n → w.acme.acct = some a → w.script = [] →
       ∃ hdrs,
         (md_acme_POST w url (.bodyInit p) .none .none).2.events =
           (w.events ++ [Event.pool_create] ++ [Event.sign hdrs (some a.url)]) ++
             [Event.http "POST" url none] ∧
         t_get hdrs "nonce" = some n ∧
         t_get hdrs "url" = some url)
    ∧
    (∀ (w : World) (url : String) (p : MdJson) (n : String) (a : MdAcmeAcct),
       w.acme.version = .V1 → w.acme.req_init_fn = some .v1 →
       w.acme.nonce = some n → w.acme.acct = some a → w.script = [] →
       ∃ hdrs,
         (md_acme_POST w url (.bodyInit p) .none .none).2.events =
           (w.events ++ [Event.pool_create] ++ [Event.sign hdrs none]) ++
             [Event.http "POST" url none] ∧
         t_get hdrs "nonce" = some n ∧
         t_get hdrs "url" = none) := by
  constructor
  · intro w url p n a hv hf hn ha hs
    refine ⟨t_set (t_set [] "nonce" n) "url" url, ?_, ?_, ?_⟩
    · unfold md_acme_POST md_acme_req_create md_acme_req_send
      dsimp only
      rw [send_signed_v2 md_acme_setup _ _
        { w with events := w.events ++ [Event.pool_create] } p n a rfl rfl hv hf hn ha hs]
    · rfl
    · rfl
  · intro w url p n a hv hf hn ha hs
    refine ⟨t_set [] "nonce" n, ?_, ?_, ?_⟩
    · unfold md_acme_POST md_acme_req_create md_acme_req_send
      dsimp only
      rw [send_signed_v1 md_acme_setup _ _
        { w with events := w.events ++ [Event.pool_create] } p n a rfl rfl hv hf hn ha hs]
    · rfl
    · rfl

/-- Concrete instantiation of C5: one signed POST on each engine flavour, with
the protected headers evaluated. -/
theorem C5_protected_headers_witness :
    (∃ hdrs,
       (md_acme_POST { acme := acmeV2 } "https://ca/order"
           (.bodyInit (.str "x")) .none .none).2.events =
         (({ acme := acmeV2 } : World).events ++ [Event.pool_create] ++
             [Event.sign hdrs (some acct7.url)]) ++
           [Event.http "POST" "https://ca/order" none] ∧
       t_get hdrs "nonce" = some "n0" ∧
       t_get hdrs "url" = some "https://ca/order") ∧
    (∃ hdrs,
       (md_acme_POST { acme := acmeV1 } "https://ca/order"
           (.bodyInit (.str "x")) .none .none).2.events =
         (({ acme := acmeV1 } : World).events ++ [Event.pool_create] ++
             [Event.sign hdrs none]) ++
           [Event.http "POST" "https://ca/order" none] ∧
       t_get hdrs "nonce" = some "n0" ∧
       t_get hdrs "url" = none) :=
  ⟨C5_protected_headers.1 { acme := acmeV2 } "https://ca/order" (.str "x") "n0" acct7
     rfl rfl rfl rfl rfl,
   C5_protected_headers.2 { acme := acmeV1 } "https://ca/order" (.str "x") "n0" acct7
     rfl rfl rfl rfl rfl⟩

/-! ## Claim C1 — in-place retry of recoverable failures -/

/-- One recoverable-failure iteration of the executor: when the dispatched
attempt reports `APR_EAGAIN` with the request record left alive, the run with
budget `n + 1` continues as the run of that same record with budget `n` on the
world the failing exchange produced. -/
theorem req_send_g_retry_step (impl : World → AprStatus × World)
    (n m : Nat) (req : Req) (w : World) (pw : Req × World) (p : MdJson)
    (ini : AprStatus × Req × World) (d : AprStatus × World × Option Req)
    (req' : Req)
    (hfu : m = n + 1)
    (hprep : req_send_prepare impl req w = .ok pw)
    (hoi : pw.1.on_init = .bodyInit p)
    (hini : md_acme_req_body_init pw.1 p pw.2 = ini)
    (hd : req_send_dispatch ini = d)
    (h1 : d.1 = .APR_EAGAIN)
    (h2 : d.2.2 = some req') :
    req_send_g impl m req w =
      req_send_g impl n { req' with max_retries := n } d.2.1 := by
  subst hfu
  rw [req_send_g]
  rw [hprep]
  dsimp only
  rw [hoi]
  dsimp only
  rw [hini, hd]
  rw [if_pos h1]
  rw [h2]

/-- C1: a recoverable failure is retried in place — when a dispatched attempt
reports `APR_EAGAIN` with the request record alive, the run with budget
`n + 1` continues as the run of that same record, its budget decremented to
`n`, on the post-failure world; the reservoir absorbs any fresh `Replay-Nonce`
of a failing response before the retry; and in the scripted scenario
(first POST answered 400 + badNonce with fresh nonce, second POST answered
200) the facade call succeeds with exactly two POSTs on the wire, while the
same call with retry budget 0 fails with the recoverable kind. -/
theorem C1_recoverable_retry :
    (∀ (impl : World → AprStatus × World) (n m : Nat) (req : Req) (w : World)
       (pw : Req × World) (p : MdJson) (ini : AprStatus × Req × World)
       (d : AprStatus × World × Option Req) (req' : Req),
       m = n + 1 →
       req_send_prepare impl req w = .ok pw →
       pw.1.on_init = .bodyInit p →
       md_acme_req_body_init pw.1 p pw.2 = ini →
       req_send_dispatch ini = d →
       d.1 = .APR_EAGAIN →
       d.2.2 = some req' →
       req_send_g impl m req w =
         req_send_g impl n { req' with max_retries := n } d.2.1)
    ∧ (∀ (req : Req) (res : HttpResponse) (w : World) (f : String),
       res.rv = .APR_SUCCESS →
       t_get res.headers "Replay-Nonce" = some f →
       (on_response req res w).2.1.acme.nonce = some f)
    ∧ ((retryCall wRetry).1 = .APR_SUCCESS ∧
       countPOST (retryCall wRetry).2.events = 2)
    ∧ ((retryCall wRetry0).1 = .APR_EAGAIN ∧
       countPOST (retryCall wRetry0).2.events = 1) := by
  refine ⟨fun impl n m req w pw p ini d req' hfu hprep hoi hini hd h1 h2 =>
      req_send_g_retry_step impl n m req w pw p ini d req' hfu hprep hoi hini hd h1 h2,
    fun req res w f h1 h2 => on_response_nonce req res w f h1 h2, ?_, ?_⟩
  · have e1 : retryCall wRetry = req_send_g md_acme_setup 3 retryReq1 retryW1 := rfl
    have e2 : req_send_g md_acme_setup 3 retryReq1 retryW1 =
        req_send_g md_acme_setup 2 { retryReqA with max_retries := 2 } retryD.2.1 :=
      req_send_g_retry_step md_acme_setup 2 3 retryReq1 retryW1 retryPW
        (.obj [("o", .str "1")]) retryINI retryD retryReqA rfl rfl rfl rfl rfl rfl rfl
    constructor
    · rw [e1, e2]; decide
    · rw [e1, e2]; decide
  · exact ⟨by decide, by decide⟩

/-- Concrete instantiation of C1's quantified parts: the scenario's own first
iteration discharges every hypothesis of the in-place retry step, and the
failing response's fresh nonce is absorbed before it. -/
theorem C1_recoverable_retry_witness :
    (3 = 2 + 1) ∧
    req_send_prepare md_acme_setup retryReq1 retryW1 = .ok retryPW ∧
    retryPW.1.on_init = .bodyInit (.obj [("o", .str "1")]) ∧
    md_acme_req_body_init retryPW.1 (.obj [("o", .str "1")]) retryPW.2 = retryINI ∧
    req_send_dispatch retryINI = retryD ∧
    retryD.1 = .APR_EAGAIN ∧
    retryD.2.2 = some retryReqA ∧
    req_send_g md_acme_setup 3 retryReq1 retryW1 =
      req_send_g md_acme_setup 2 { retryReqA with max_retries := 2 } retryD.2.1 ∧
    (badNonceResp "n1").rv = .APR_SUCCESS ∧
    t_get (badNonceResp "n1").headers "Replay-Nonce" = some "n1" ∧
    (on_response retryINI.2.1 (badNonceResp "n1") retryINI.2.2).2.1.acme.nonce =
      some "n1" :=
  ⟨rfl, rfl, rfl, rfl, rfl, rfl, rfl,
   C1_recoverable_retry.1 md_acme_setup 2 3 retryReq1 retryW1 retryPW
     (.obj [("o", .str "1")]) retryINI retryD retryReqA rfl rfl rfl rfl rfl rfl rfl,
   rfl, rfl,
   C1_recoverable_retry.2.1 retryINI.2.1 (badNonceResp "n1") retryINI.2.2 "n1"
     rfl rfl⟩

/-! ## Claim C3 — directory-driven version detection -/

/-- The directory `GET` of `md_acme_setup` on a transport scripted to deliver
the document: it succeeds and clones the document into the caller's baton. -/
theorem get_json_dir (w : World) (url : String) (json : MdJson)
    (hs : w.script = [dirResp json]) :
    md_acme_get_json w url =
      (.APR_SUCCESS,
       { w with
         script := [],
         events := ((w.events ++ [.pool_create]) ++
           [.http "GET" url w.acme.nonce] ++ [.cb_json]) ++ [.pool_destroy],
         json_ctx := some json },
       some json) := by
  cases w with
  | mk acme script events json_ctx =>
    cases hs
    unfold md_acme_get_json md_acme_req_create
    dsimp only
    cases hfu : acme.max_retries with
    | zero => rfl
    | succ m => rfl

/-- `md_acme_setup` on a delivered directory document: the engine is reset to
version UNKNOWN, transformed by the detection block, and the call fails with
`APR_EINVAL` exactly when the version is still UNKNOWN afterwards. -/
theorem setup_dir (w : World) (json : MdJson)
    (hs : w.script = [dirResp json]) (hh : w.acme.http = true) :
    md_acme_setup w =
      (if (setup_detect { w.acme with version := .UNKNOWN } json).version = .UNKNOWN
       then (.APR_EINVAL,
         { w with
           acme := setup_detect { w.acme with version := .UNKNOWN } json,
           script := [],
           events := ((w.events ++ [.pool_create]) ++
             [.http "GET" w.acme.url w.acme.nonce] ++ [.cb_json]) ++ [.pool_destroy],
           json_ctx := some json })
       else (.APR_SUCCESS,
         { w with
           acme := setup_detect { w.acme with version := .UNKNOWN } json,
           script := [],
           events := ((w.events ++ [.pool_create]) ++
             [.http "GET" w.acme.url w.acme.nonce] ++ [.cb_json]) ++ [.pool_destroy],
           json_ctx := some json })) := by
  unfold md_acme_setup
  dsimp only
  rw [if_pos hh]
  rw [get_json_dir { w with acme := { w.acme with version := .UNKNOWN } }
    ({ w with acme := { w.acme with version := .UNKNOWN } } : World).acme.url json hs]
  dsimp only
  rw [if_neg (show ¬ (AprStatus.APR_SUCCESS ≠ .APR_SUCCESS) from fun h => h rfl)]

/-- Detection on a directory naming `new-authz` and all four V1 endpoints:
version V1 is committed. -/
theorem setup_detect_v1 (acme : MdAcme) (json : MdJson) (a c r v : String)
    (hA : md_json_gets json "new-authz" = some a)
    (hC : md_json_gets json "new-cert" = some c)
    (hR : md_json_gets json "new-reg" = some r)
    (hV : md_json_gets json "revoke-cert" = some v) :
    (setup_detect acme json).version = .V1 := by
  unfold setup_detect
  rw [hA]
  dsimp only
  rw [hC, hR, hV]
  rw [if_pos ⟨rfl, rfl, rfl, rfl⟩]

/-- Detection on a directory lacking `new-authz` but naming `newAccount` and
all five V2 endpoints: version V2 is committed. -/
theorem setup_detect_v2 (acme : MdAcme) (json : MdJson) (b o rc k nn : String)
    (hA : md_json_gets json "new-authz" = none)
    (hB : md_json_gets json "newAccount" = some b)
    (hO : md_json_gets json "newOrder" = some o)
    (hRC : md_json_gets json "revokeCert" = some rc)
    (hK : md_json_gets json "keyChange" = some k)
    (hN : md_json_gets json "newNonce" = some nn) :
    (setup_detect acme json).version = .V2 := by
  unfold setup_detect
  rw [hA]
  dsimp only
  rw [hB]
  dsimp only
  rw [hO, hRC, hK, hN]
  rw [if_pos ⟨rfl, rfl, rfl, rfl, rfl⟩]

/-- Detection on every other directory object leaves the version untouched. -/
theorem setup_detect_skip (acme : MdAcme) (json : MdJson)
    (hnA : ¬((md_json_gets json "new-authz").isSome
        ∧ (md_json_gets json "new-cert").isSome
        ∧ (md_json_gets json "new-reg").isSome
        ∧ (md_json_gets json "revoke-cert").isSome))
    (hnB : ¬(md_json_gets json "new-authz" = none
        ∧ (md_json_gets json "newAccount").isSome
        ∧ (md_json_gets json "newOrder").isSome
        ∧ (md_json_gets json "revokeCert").isSome
        ∧ (md_json_gets json "keyChange").isSome
        ∧ (md_json_gets json "newNonce").isSome)) :
    (setup_detect acme json).version = acme.version := by
  unfold setup_detect
  cases hA : md_json_gets json "new-authz" with
  | some a =>
    dsimp only
    rw [if_neg (fun h => hnA ⟨by rw [hA]; rfl, h.2.1, h.2.2.1, h.2.2.2⟩)]
  | none =>
    cases hB : md_json_gets json "newAccount" with
    | some b =>
      dsimp only
      rw [if_neg (fun h => hnB ⟨hA, by rw [hB]; rfl, h.2.1, h.2.2.1, h.2.2.2.1,
        h.2.2.2.2⟩)]
    | none => rfl

/-- C3: setup on a delivered directory commits V1 when the document names
`new-authz` and all four V1 endpoints, commits V2 when it lacks `new-authz`
but names `newAccount` and all five V2 endpoints, and on every other directory
object fails with `APR_EINVAL` leaving the version UNKNOWN. -/
theorem C3_directory_detection :
    (∀ (w : World) (json : MdJson) (a c r v : String),
       w.script = [dirResp json] → w.acme.http = true →
       md_json_gets json "new-authz" = some a →
       md_json_gets json "new-cert" = some c →
       md_json_gets json "new-reg" = some r →
       md_json_gets json "revoke-cert" = some v →
       (md_acme_setup w).1 = .APR_SUCCESS ∧
       (md_acme_setup w).2.acme.version = .V1)
    ∧ (∀ (w : World) (json : MdJson) (b o rc k nn : String),
       w.script = [dirResp json] → w.acme.http = true →
       md_json_gets json "new-authz" = none →
       md_json_gets json "newAccount" = some b →
       md_json_gets json "newOrder" = some o →
       md_json_gets json "revokeCert" = some rc →
       md_json_gets json "keyChange" = some k →
       md_json_gets json "newNonce" = some nn →
       (md_acme_setup w).1 = .APR_SUCCESS ∧
       (md_acme_setup w).2.acme.version = .V2)
    ∧ (∀ (w : World) (json : MdJson),
       w.script = [dirResp json] → w.acme.http = true →
       ¬((md_json_gets json "new-authz").isSome
           ∧ (md_json_gets json "new-cert").isSome
           ∧ (md_json_gets json "new-reg").isSome
           ∧ (md_json_gets json "revoke-cert").isSome) →
       ¬(md_json_gets json "new-authz" = none
           ∧ (md_json_gets json "newAccount").isSome
           ∧ (md_json_gets json "newOrder").isSome
           ∧ (md_json_gets json "revokeCert").isSome
           ∧ (md_json_gets json "keyChange").isSome
           ∧ (md_json_gets json "newNonce").isSome) →
       (md_acme_setup w).1 = .APR_EINVAL ∧
       (md_acme_setup w).2.acme.version = .UNKNOWN) := by
  refine ⟨?_, ?_, ?_⟩
  · intro w json a c r v hs hh hA hC hR hV
    have hd := setup_detect_v1 { w.acme with version := .UNKNOWN } json a c r v
      hA hC hR hV
    rw [setup_dir w json hs hh]
    rw [if_neg (by rw [hd]; exact fun h => AcmeVersion.noConfusion h)]
    exact ⟨rfl, hd⟩
  · intro w json b o rc k nn hs hh hA hB hO hRC hK hN
    have hd := setup_detect_v2 { w.acme with version := .UNKNOWN } json b o rc k nn
      hA hB hO hRC hK hN
    rw [setup_dir w json hs hh]
    rw [if_neg (by rw [hd]; exact fun h => AcmeVersion.noConfusion h)]
    exact ⟨rfl, hd⟩
  · intro w json hs hh hnA hnB
    have hd : (setup_detect { w.acme with version := .UNKNOWN } json).version
        = .UNKNOWN := by
      rw [setup_detect_skip { w.acme with version := .UNKNOWN } json hnA hnB]
    rw [setup_dir w json hs hh]
    rw [if_pos hd]
    exact ⟨rfl, hd⟩

/-- Concrete instantiation of C3: a complete V1 directory, a complete V2
directory, and a directory naming only `newAccount`. -/
theorem C3_directory_detection_witness :
    ((md_acme_setup (wDir dirV1)).1 = .APR_SUCCESS ∧
     (md_acme_setup (wDir dirV1)).2.acme.version = .V1) ∧
    ((md_acme_setup (wDir dirV2)).1 = .APR_SUCCESS ∧
     (md_acme_setup (wDir dirV2)).2.acme.version = .V2) ∧
    ((md_acme_setup (wDir dirPartial)).1 = .APR_EINVAL ∧
     (md_acme_setup (wDir dirPartial)).2.acme.version = .UNKNOWN) :=
  ⟨C3_directory_detection.1 (wDir dirV1) dirV1 _ _ _ _ rfl rfl rfl rfl rfl rfl,
   C3_directory_detection.2.1 (wDir dirV2) dirV2 _ _ _ _ _ rfl rfl rfl rfl rfl rfl
     rfl rfl,
   C3_directory_detection.2.2 (wDir dirPartial) dirPartial rfl rfl
     (by decide) (by decide)⟩

/-! ## Claim C7 — the UNKNOWN-version invariant -/

/-- Detection on a directory that names `newAccount` but lacks `newNonce`:
no version commit, yet the V2 selectors are assigned and the V2 endpoint
table is populated with whatever keys are present. -/
theorem setup_detect_partial_v2 (acme : MdAcme) (json : MdJson) (s : String)
    (hA : md_json_gets json "new-authz" = none)
    (hB : md_json_gets json "newAccount" = some s)
    (hN : md_json_gets json "newNonce" = none) :
    setup_detect acme json =
      { acme with
        api_v2 := { new_account := some s,
                    new_order := md_json_gets json "newOrder",
                    revoke_cert := md_json_gets json "revokeCert",
                    key_change := md_json_gets json "keyChange",
                    new_nonce := none },
        ca_agreement := md_json_gets2 json "meta" "termsOfService",
        new_nonce_fn := some .v2, req_init_fn := some .v2,
        post_new_account_fn := some .v2 } := by
  unfold setup_detect
  rw [hA]
  dsimp only
  rw [hB]
  dsimp only
  rw [hN]
  rw [if_neg (fun h => absurd h.2.2.2.2 (by decide))]

/-- C7 (amended): the invariant holds after engine creation — a created
engine has version UNKNOWN, empty endpoint tables and unset selectors — but
it is NOT preserved by setup: a setup call on a directory that names
`newAccount` while lacking `newNonce` leaves the version UNKNOWN with all
three strategy selectors assigned and the endpoint table populated. -/
theorem C7_unknown_invariant :
    (∀ (bp url : String) (pu : Option String) (acme : MdAcme),
       md_acme_create bp url pu = some acme →
       acme.version = .UNKNOWN ∧ acme.api_v1 = {} ∧ acme.api_v2 = {} ∧
       acme.new_nonce_fn = none ∧ acme.req_init_fn = none ∧
       acme.post_new_account_fn = none)
    ∧ (∀ (w : World) (json : MdJson) (s : String),
       w.script = [dirResp json] → w.acme.http = true →
       md_json_gets json "new-authz" = none →
       md_json_gets json "newAccount" = some s →
       md_json_gets json "newNonce" = none →
       (md_acme_setup w).2.acme.version = .UNKNOWN ∧
       (md_acme_setup w).2.acme.new_nonce_fn = some .v2 ∧
       (md_acme_setup w).2.acme.req_init_fn = some .v2 ∧
       (md_acme_setup w).2.acme.post_new_account_fn = some .v2 ∧
       (md_acme_setup w).2.acme.api_v2.new_account = some s) := by
  constructor
  · intro bp url pu acme h
    unfold md_acme_create at h
    split at h
    · exact Option.noConfusion h
    · injection h with h'
      subst h'
      exact ⟨rfl, rfl, rfl, rfl, rfl, rfl⟩
  · intro w json s hs hh hA hB hN
    have hd := setup_detect_partial_v2 { w.acme with version := .UNKNOWN } json s
      hA hB hN
    have hv : (setup_detect { w.acme with version := .UNKNOWN } json).version
        = .UNKNOWN := by rw [hd]
    rw [setup_dir w json hs hh]
    rw [if_pos hv]
    exact ⟨hv, by rw [hd], by rw [hd], by rw [hd], by rw [hd]⟩

/-- C7 counterexample: the engine of `wDir dirPartialV1` satisfies the claimed
invariant, yet after one setup call on its directory — which names `new-authz`
but lacks the other V1 endpoints — the version is UNKNOWN while the nonce
selector is set and the endpoint table holds `new-authz`: the invariant does
not survive the operation. -/
theorem C7_unknown_invariant_counterexample :
    ((wDir dirPartialV1).acme.version = .UNKNOWN ∧
     (wDir dirPartialV1).acme.api_v1 = {} ∧
     (wDir dirPartialV1).acme.api_v2 = {} ∧
     (wDir dirPartialV1).acme.new_nonce_fn = none ∧
     (wDir dirPartialV1).acme.req_init_fn = none ∧
     (wDir dirPartialV1).acme.post_new_account_fn = none) ∧
    (md_acme_setup (wDir dirPartialV1)).2.acme.version = .UNKNOWN ∧
    (md_acme_setup (wDir dirPartialV1)).2.acme.new_nonce_fn = some .v1 ∧
    (md_acme_setup (wDir dirPartialV1)).2.acme.api_v1.new_authz =
      some "https://ca/acme/new-authz" := by decide

/-- Concrete instantiation of C7: a freshly created engine, and the setup
call on the `newAccount`-only directory. -/
theorem C7_unknown_invariant_witness :
    (md_acme_create "prod" "https://ca/dir" none =
       some { url := "https://ca/dir", sname := "ca",
              user_agent := "prod mod_md/2.0.x", max_retries := 3 } ∧
     ({ url := "https://ca/dir", sname := "ca",
        user_agent := "prod mod_md/2.0.x", max_retries := 3 } : MdAcme).version
       = .UNKNOWN) ∧
    ((md_acme_setup (wDir dirPartial)).2.acme.version = .UNKNOWN ∧
     (md_acme_setup (wDir dirPartial)).2.acme.new_nonce_fn = some .v2 ∧
     (md_acme_setup (wDir dirPartial)).2.acme.req_init_fn = some .v2 ∧
     (md_acme_setup (wDir dirPartial)).2.acme.post_new_account_fn = some .v2 ∧
     (md_acme_setup (wDir dirPartial)).2.acme.api_v2.new_account =
       some "https://ca/acme/new-acct") :=
  ⟨⟨rfl,
    (C7_unknown_invariant.1 "prod" "https://ca/dir" none
      { url := "https://ca/dir", sname := "ca",
        user_agent := "prod mod_md/2.0.x", max_retries := 3 } rfl).1⟩,
   C7_unknown_invariant.2 (wDir dirPartial) dirPartial "https://ca/acme/new-acct"
     rfl rfl rfl rfl rfl⟩

/-! ## Claim C8 — setup with a failing directory fetch -/

/-- The directory `GET` on an exhausted transport: the exchange cannot start,
the callback never runs, and the baton stays empty.  (The request record's
pool is not destroyed on this path.) -/
theorem get_json_empty (w : World) (url : String) (hs : w.script = []) :
    md_acme_get_json w url =
      (.other 999,
       { w with
         script := [],
         events := (w.events ++ [.pool_create]) ++ [.http "GET" url w.acme.nonce],
         json_ctx := none },
       none) := by
  cases w with
  | mk acme script events json_ctx =>
    cases hs
    unfold md_acme_get_json md_acme_req_create
    dsimp only
    cases acme.max_retries with
    | zero => rfl
    | succ m => rfl

/-- C8 (amended): when the directory fetch fails, setup surfaces the fetch's
error and leaves the endpoint tables, the strategy selectors and the bound
account untouched — but it does NOT leave the version as it was: the entry
reset to UNKNOWN survives the early return. -/
theorem C8_failed_fetch :
    ∀ (w : World), w.acme.http = true → w.script = [] →
      (md_acme_setup w).1 = .other 999 ∧
      (md_acme_setup w).2.acme.api_v1 = w.acme.api_v1 ∧
      (md_acme_setup w).2.acme.api_v2 = w.acme.api_v2 ∧
      (md_acme_setup w).2.acme.new_nonce_fn = w.acme.new_nonce_fn ∧
      (md_acme_setup w).2.acme.req_init_fn = w.acme.req_init_fn ∧
      (md_acme_setup w).2.acme.post_new_account_fn = w.acme.post_new_account_fn ∧
      (md_acme_setup w).2.acme.acct = w.acme.acct ∧
      (md_acme_setup w).2.acme.version = .UNKNOWN := by
  intro w hh hs
  have e : md_acme_setup w =
      (.other 999,
       { w with
         acme := { w.acme with version := .UNKNOWN },
         script := [],
         events := (w.events ++ [.pool_create]) ++
           [.http "GET" w.acme.url w.acme.nonce],
         json_ctx := none }) := by
    unfold md_acme_setup
    dsimp only
    rw [if_pos hh]
    rw [get_json_empty { w with acme := { w.acme with version := .UNKNOWN } }
      ({ w with acme := { w.acme with version := .UNKNOWN } } : World).acme.url hs]
    dsimp only
    rw [if_pos (show (AprStatus.other 999) ≠ .APR_SUCCESS from
      fun h => AprStatus.noConfusion h)]
  rw [e]
  exact ⟨rfl, rfl, rfl, rfl, rfl, rfl, rfl, rfl⟩

/-- C8 counterexample: a bootstrapped V2 engine whose directory re-fetch
fails — the call returns an error, yet the engine's version has changed from
V2 to UNKNOWN. -/
theorem C8_failed_fetch_counterexample :
    ({ acme := acmeV2, script := [] } : World).acme.version = .V2 ∧
    (md_acme_setup { acme := acmeV2, script := [] }).1 ≠ .APR_SUCCESS ∧
    ¬((md_acme_setup { acme := acmeV2, script := [] }).2.acme.version = .V2) := by
  decide

/-- Concrete instantiation of C8: the failing re-fetch on a bootstrapped V1
engine. -/
theorem C8_failed_fetch_witness :
    (md_acme_setup { acme := acmeV1, script := [] }).1 = .other 999 ∧
    (md_acme_setup { acme := acmeV1, script := [] }).2.acme.api_v1 =
      ({ acme := acmeV1, script := [] } : World).acme.api_v1 ∧
    (md_acme_setup { acme := acmeV1, script := [] }).2.acme.api_v2 =
      ({ acme := acmeV1, script := [] } : World).acme.api_v2 ∧
    (md_acme_setup { acme := acmeV1, script := [] }).2.acme.new_nonce_fn =
      ({ acme := acmeV1, script := [] } : World).acme.new_nonce_fn ∧
    (md_acme_setup { acme := acmeV1, script := [] }).2.acme.req_init_fn =
      ({ acme := acmeV1, script := [] } : World).acme.req_init_fn ∧
    (md_acme_setup { acme := acmeV1, script := [] }).2.acme.post_new_account_fn =
      ({ acme := acmeV1, script := [] } : World).acme.post_new_account_fn ∧
    (md_acme_setup { acme := acmeV1, script := [] }).2.acme.acct =
      ({ acme := acmeV1, script := [] } : World).acme.acct ∧
    (md_acme_setup { acme := acmeV1, script := [] }).2.acme.version = .UNKNOWN :=
  C8_failed_fetch { acme := acmeV1, script := [] } rfl rfl

/-! ## Claim C9 — request-pool lifetime -/

/-- C9 (observed behaviour): across the recovered scenario the request pool is
created once and destroyed once (kept alive across the retry, destroyed at the
successful terminal); a fatal (non-recoverable) failure also destroys it; but
when the retry budget of a recoverable failure is exhausted the call returns
with the pool still allocated — created once, destroyed zero times.  The spec
claims destruction on every terminal outcome; the code nulls its request
pointer on the recoverable path before the budget check (line 397), so the
exhaustion return skips `md_acme_req_done`. -/
theorem C9_pool_lifetime :
    (countPoolCreate (retryCall wRetry).2.events = 1 ∧
     countPoolDestroy (retryCall wRetry).2.events = 1) ∧
    (countPoolCreate (retryCall wFatal).2.events = 1 ∧
     countPoolDestroy (retryCall wFatal).2.events = 1) ∧
    ((retryCall wRetry0).1 = .APR_EAGAIN ∧
     countPoolCreate (retryCall wRetry0).2.events = 1 ∧
     countPoolDestroy (retryCall wRetry0).2.events = 0) := by
  refine ⟨?_, ⟨by decide, by decide⟩, by decide, by decide, by decide⟩
  have e1 : retryCall wRetry = req_send_g md_acme_setup 3 retryReq1 retryW1 := rfl
  have e2 : req_send_g md_acme_setup 3 retryReq1 retryW1 =
      req_send_g md_acme_setup 2 { retryReqA with max_retries := 2 } retryD.2.1 :=
    req_send_g_retry_step md_acme_setup 2 3 retryReq1 retryW1 retryPW
      (.obj [("o", .str "1")]) retryINI retryD retryReqA rfl rfl rfl rfl rfl rfl rfl
  constructor
  · rw [e1, e2]; decide
  · rw [e1, e2]; decide
